import Mathlib

/-!
# Verification of the hive tool adapters (Twitter/X and Google Docs)

Shallow embedding of `src/tools/src/aden_tools/tools/twitter_tool/twitter_tool.py`
and `src/tools/src/aden_tools/tools/google_docs_tool/google_docs_tool.py`.

Modelling conventions:
* JSON values are modelled by `JVal` (JSON numbers restricted to integers; no
  claim involves fractional values).
* Python exceptions are modelled by `PyExc`; a Python function that may raise
  returns `Except PyExc α` (abbreviated `PyM α`).  `Except.error` marks a raised
  exception, `Except.ok` a normal return.
* The network is an oracle `Net : Request → NetResult`: a response, or an
  `httpx.TimeoutException`, or another `httpx.RequestError`.
  An `HttpResponse` carries a status code, the JSON parse of its body
  (`none` when the body is empty or not valid JSON, in which case
  `response.json()` raises), the raw text, and the headers.
* Functions that issue HTTP requests additionally return the list of requests
  they issued, in order, so that claims about which calls are attempted can be
  stated.
-/

namespace Hive

/-- A JSON value (numbers restricted to integers). An `obj` models a Python
dict with string keys (keys are unique in every dict the code builds). -/
inductive JVal where
  | null
  | bool (b : Bool)
  | int (n : Int)
  | str (s : String)
  | arr (xs : List JVal)
  | obj (kvs : List (String × JVal))

/-- Python exceptions that the embedded code can raise. -/
inductive PyExc where
  | timeout
  | netError (msg : String)
  | typeError (msg : String)
  | jsonDecodeError
  | attributeError
  | keyError
  | indexError
deriving DecidableEq, Repr

/-- Computations that may raise a Python exception. -/
abbrev PyM (α : Type) : Type := Except PyExc α

/-- Lookup in a JSON object / Python dict (keys are unique). -/
def jget (kvs : List (String × JVal)) (k : String) : Option JVal :=
  match kvs.find? (fun p => p.1 == k) with
  | some p => some p.2
  | none => none

/-- Python `x.get(k, d)`: works on dicts, raises `AttributeError` otherwise.
A key present with value `None` yields `None`, not the default. -/
def jgetAttr (j : JVal) (k : String) (d : JVal) : PyM JVal :=
  match j with
  | .obj kvs => .ok ((jget kvs k).getD d)
  | _ => .error .attributeError

/-- Python `x[k]` for a string key: `KeyError` when missing, `TypeError` when
`x` is not a dict (JSON arrays/strings take integer indices only). -/
def jindex (j : JVal) (k : String) : PyM JVal :=
  match j with
  | .obj kvs =>
    match jget kvs k with
    | some v => .ok v
    | none => .error .keyError
  | _ => .error (.typeError "indices mismatch")

/-- Python truthiness of a JSON value. -/
def jTruthy : JVal → Bool
  | .null => false
  | .bool b => b
  | .int n => n != 0
  | .str s => !(s == "")
  | .arr xs => !xs.isEmpty
  | .obj kvs => !kvs.isEmpty

mutual

/-- Python `repr` of a JSON value (as rendered inside f-strings for
containers). -/
def pyRepr : JVal → String
  | .null => "None"
  | .bool true => "True"
  | .bool false => "False"
  | .int n => toString n
  | .str s => "\x27" ++ s ++ "\x27"
  | .arr xs => "[" ++ pyReprList xs ++ "]"
  | .obj kvs => "\x7b" ++ pyReprObj kvs ++ "\x7d"

/-- `repr` of the elements of a JSON array, comma separated. -/
def pyReprList : List JVal → String
  | [] => ""
  | [x] => pyRepr x
  | x :: xs => pyRepr x ++ ", " ++ pyReprList xs

/-- `repr` of the entries of a JSON object, comma separated. -/
def pyReprObj : List (String × JVal) → String
  | [] => ""
  | [(k, v)] => "\x27" ++ k ++ "\x27: " ++ pyRepr v
  | (k, v) :: kvs => "\x27" ++ k ++ "\x27: " ++ pyRepr v ++ ", " ++ pyReprObj kvs

end

/-- Python `str()` of a JSON value, as used by f-string interpolation. -/
def pyStr : JVal → String
  | .str s => s
  | v => pyRepr v

/-- Substring test on strings (Python `"pat" in s`), decidable. -/
def strContains (s pat : String) : Bool :=
  decide (pat.data <:+: s.data)

/-- Python `"error" in x`: key membership for dicts, element membership for
lists, substring for strings, `TypeError` otherwise. -/
def pyInError (j : JVal) : PyM Bool :=
  match j with
  | .obj kvs => .ok (jget kvs "error").isSome
  | .arr xs => .ok (xs.any (fun v => match v with | .str s => s == "error" | _ => false))
  | .str s => .ok (strContains s "error")
  | _ => .error (.typeError "argument of type is not iterable")

/-- The one-key error mapping `{"error": msg}`. -/
def errObj (msg : String) : JVal := .obj [("error", .str msg)]

/-- An HTTP response: status, the JSON parse of the body (`none` when the body
is empty or not valid JSON), the raw text, and the headers. -/
structure HttpResponse where
  status : Nat
  body : Option JVal
  text : String
  headers : List (String × String)

/-- `response.headers.get(k, d)`. -/
def headerGetD (hs : List (String × String)) (k d : String) : String :=
  match hs.find? (fun p => p.1 == k) with
  | some p => p.2
  | none => d

/-- `response.json()`: the parsed body, or a raised `json.JSONDecodeError`. -/
def respJson (r : HttpResponse) : PyM JVal :=
  match r.body with
  | some j => .ok j
  | none => .error .jsonDecodeError

/-- An HTTP request issued by an adapter. -/
structure Request where
  method : String
  url : String
  bearer : String
  params : List (String × JVal)
  jsonBody : Option JVal

/-- Outcome of sending a request: a response, an `httpx.TimeoutException`, or
another `httpx.RequestError`. -/
inductive NetResult where
  | resp (r : HttpResponse)
  | timeout
  | netError (msg : String)

/-- The network oracle. -/
abbrev Net : Type := Request → NetResult

/-- `os.environ`: `getenv` returns the variable's value or `none`. -/
abbrev Env : Type := List (String × String)

/-- `os.getenv(k)`. -/
def getenv (env : Env) (k : String) : Option String :=
  match env.find? (fun p => p.1 == k) with
  | some p => some p.2
  | none => none

/-! ## Twitter adapter: `_TwitterClient._handle_response`

```python
if response.status_code == 429:
    reset = response.headers.get("x-rate-limit-reset", "unknown")
    return {"error": f"Rate limited. Resets at timestamp: {reset}"}
if response.status_code == 401:
    return {"error": "Invalid or expired Twitter token"}
if response.status_code == 403:
    return {"error": "Forbidden - check token permissions (need read+write scope)"}
if response.status_code not in (200, 201, 204):
    try:
        err = response.json()
        errors = err.get("errors", [])
        msg = errors[0].get("message") if errors else err.get("detail", response.text)
    except Exception:
        msg = response.text
    return {"error": f"Twitter API error (...): {msg}"}
if response.status_code == 204:
    return {"success": True}
return response.json()
```
-/

/-- The `msg` computed in the generic (`not in (200, 201, 204)`) branch of the
Twitter `_handle_response`; any exception inside the `try` falls back to
`response.text`. -/
def twitterErrMsg (r : HttpResponse) : String :=
  match r.body with
  | none => r.text
  | some err =>
    match err with
    | .obj kvs =>
      let errors := (jget kvs "errors").getD (.arr [])
      if jTruthy errors then
        match errors with
        | .arr es =>
          match es.head? with
          | some (.obj e0) => pyStr ((jget e0 "message").getD .null)
          | _ => r.text
        | _ => r.text
      else
        pyStr ((jget kvs "detail").getD (.str r.text))
    | _ => r.text

/-- `_TwitterClient._handle_response`. -/
def twitterHandleResponse (r : HttpResponse) : PyM JVal :=
  if r.status == 429 then
    .ok (errObj ("Rate limited. Resets at timestamp: " ++
      headerGetD r.headers "x-rate-limit-reset" "unknown"))
  else if r.status == 401 then
    .ok (errObj "Invalid or expired Twitter token")
  else if r.status == 403 then
    .ok (errObj "Forbidden - check token permissions (need read+write scope)")
  else if !(r.status == 200) && !(r.status == 201) && !(r.status == 204) then
    .ok (errObj ("Twitter API error (" ++ toString r.status ++ "): " ++ twitterErrMsg r))
  else if r.status == 204 then
    .ok (.obj [("success", .bool true)])
  else
    respJson r

/-! ## Google Docs adapter: `_GoogleDocsClient._handle_response`

```python
if response.status_code == 401:
    return {"error": "Invalid or expired Google access token"}
if response.status_code == 403:
    return {"error": "Insufficient permissions. ..."}
if response.status_code == 404:
    return {"error": "Document not found"}
if response.status_code == 429:
    return {"error": "Google API rate limit exceeded. Try again later."}
if response.status_code >= 400:
    try:
        error_data = response.json()
        detail = error_data.get("error", {}).get("message", response.text)
    except Exception:
        detail = response.text
    return {"error": f"Google Docs API error (HTTP ...): {detail}"}
return response.json()
```
-/

/-- The `detail` computed in the generic (`>= 400`) branch of the Google Docs
`_handle_response`; any exception inside the `try` falls back to
`response.text`. -/
def googleDetail (r : HttpResponse) : String :=
  match r.body with
  | none => r.text
  | some errorData =>
    match errorData with
    | .obj kvs =>
      match (jget kvs "error").getD (.obj []) with
      | .obj ekvs => pyStr ((jget ekvs "message").getD (.str r.text))
      | _ => r.text
    | _ => r.text

/-- `_GoogleDocsClient._handle_response`. -/
def googleHandleResponse (r : HttpResponse) : PyM JVal :=
  if r.status == 401 then
    .ok (errObj "Invalid or expired Google access token")
  else if r.status == 403 then
    .ok (errObj ("Insufficient permissions. Check your Google API scopes. " ++
      "Required scopes: https://www.googleapis.com/auth/documents"))
  else if r.status == 404 then
    .ok (errObj "Document not found")
  else if r.status == 429 then
    .ok (errObj "Google API rate limit exceeded. Try again later.")
  else if r.status ≥ 400 then
    .ok (errObj ("Google Docs API error (HTTP " ++ toString r.status ++ "): " ++ googleDetail r))
  else
    respJson r

/-! ## Sending a request

Each client method builds one `httpx` call and feeds the response to
`_handle_response`; a transport exception raised by `httpx` propagates out of
the client method. -/

/-- Send a request with the Twitter client and handle the response. -/
def twitterSend (net : Net) (req : Request) : PyM JVal :=
  match net req with
  | .timeout => .error .timeout
  | .netError m => .error (.netError m)
  | .resp r => twitterHandleResponse r

/-- Send a request with the Google Docs client and handle the response. -/
def googleSend (net : Net) (req : Request) : PyM JVal :=
  match net req with
  | .timeout => .error .timeout
  | .netError m => .error (.netError m)
  | .resp r => googleHandleResponse r

/-! ## Twitter client operations (`_TwitterClient`)

State of a client instance is its `_me_id` cache (`Option JVal`; the cached
value is whatever `result["data"]["id"]` produced).  Each operation returns its
result, the cache after the call, and the list of requests it issued. -/

def TWITTER_API_BASE : String := "https://api.twitter.com/2"

/-- Truthiness of an optional string argument (`if x:` on `str | None`). -/
def optTruthy : Option String → Bool
  | some s => !(s == "")
  | none => false

/-- The request issued by `post_tweet`. -/
def postTweetRequest (tok text : String) (replyTo : Option String) : Request :=
  { method := "POST", url := TWITTER_API_BASE ++ "/tweets", bearer := tok, params := [],
    jsonBody := some (.obj ([("text", .str text)] ++
      (if optTruthy replyTo then
        [("reply", .obj [("in_reply_to_tweet_id", .str (replyTo.getD ""))])]
      else []))) }

/-- `_TwitterClient.post_tweet`. -/
def postTweetOp (net : Net) (tok text : String) (replyTo : Option String) :
    PyM JVal × List Request :=
  let req := postTweetRequest tok text replyTo
  (twitterSend net req, [req])

/-- The request issued by `delete_tweet`. -/
def deleteTweetRequest (tok tweetId : String) : Request :=
  { method := "DELETE", url := TWITTER_API_BASE ++ "/tweets/" ++ tweetId, bearer := tok,
    params := [], jsonBody := none }

/-- `_TwitterClient.delete_tweet`. -/
def deleteTweetOp (net : Net) (tok tweetId : String) : PyM JVal × List Request :=
  let req := deleteTweetRequest tok tweetId
  (twitterSend net req, [req])

/-- The request issued by `get_tweet`. -/
def getTweetRequest (tok tweetId tweetFields : String) : Request :=
  { method := "GET", url := TWITTER_API_BASE ++ "/tweets/" ++ tweetId, bearer := tok,
    params := [("tweet.fields", .str tweetFields)], jsonBody := none }

/-- `_TwitterClient.get_tweet`. -/
def getTweetOp (net : Net) (tok tweetId tweetFields : String) : PyM JVal × List Request :=
  let req := getTweetRequest tok tweetId tweetFields
  (twitterSend net req, [req])

/-- The request issued by `search_tweets`; `max_results` is sent as
`max(10, min(max_results, 100))`. -/
def searchTweetsRequest (tok query : String) (maxResults : Int) (tweetFields : String) :
    Request :=
  { method := "GET", url := TWITTER_API_BASE ++ "/tweets/search/recent", bearer := tok,
    params := [("query", .str query),
               ("max_results", .int (max 10 (min maxResults 100))),
               ("tweet.fields", .str tweetFields)],
    jsonBody := none }

/-- `_TwitterClient.search_tweets`. -/
def searchTweetsOp (net : Net) (tok query : String) (maxResults : Int) (tweetFields : String) :
    PyM JVal × List Request :=
  let req := searchTweetsRequest tok query maxResults tweetFields
  (twitterSend net req, [req])

/-- The request issued by `_get_me_id`. -/
def meRequest (tok : String) : Request :=
  { method := "GET", url := TWITTER_API_BASE ++ "/users/me", bearer := tok,
    params := [], jsonBody := none }

/-- `_TwitterClient._get_me_id`: lazy-cached lookup of the authenticated
user's id.  Returns the id (or the error mapping), the cache after the call,
and the requests issued. -/
def getMeId (net : Net) (tok : String) (cache : Option JVal) :
    PyM JVal × Option JVal × List Request :=
  match cache with
  | some v => (.ok v, some v, [])
  | none =>
    let req := meRequest tok
    match twitterSend net req with
    | .error e => (.error e, none, [req])
    | .ok result =>
      match pyInError result with
      | .error e => (.error e, none, [req])
      | .ok true => (.ok result, none, [req])
      | .ok false =>
        match (do let d ← jindex result "data"; jindex d "id" : PyM JVal) with
        | .error e => (.error e, none, [req])
        | .ok v => (.ok v, some v, [req])

/-- The request issued by `like_tweet` after identity resolution. -/
def likeRequest (tok meId tweetId : String) : Request :=
  { method := "POST", url := TWITTER_API_BASE ++ "/users/" ++ meId ++ "/likes", bearer := tok,
    params := [], jsonBody := some (.obj [("tweet_id", .str tweetId)]) }

/-- The request issued by `unlike_tweet` after identity resolution. -/
def unlikeRequest (tok meId tweetId : String) : Request :=
  { method := "DELETE", url := TWITTER_API_BASE ++ "/users/" ++ meId ++ "/likes/" ++ tweetId,
    bearer := tok, params := [], jsonBody := none }

/-- The request issued by `retweet` after identity resolution. -/
def retweetRequest (tok meId tweetId : String) : Request :=
  { method := "POST", url := TWITTER_API_BASE ++ "/users/" ++ meId ++ "/retweets", bearer := tok,
    params := [], jsonBody := some (.obj [("tweet_id", .str tweetId)]) }

/-- The request issued by `undo_retweet` after identity resolution. -/
def undoRetweetRequest (tok meId tweetId : String) : Request :=
  { method := "DELETE", url := TWITTER_API_BASE ++ "/users/" ++ meId ++ "/retweets/" ++ tweetId,
    bearer := tok, params := [], jsonBody := none }

/-- The request issued by `follow_user` after identity resolution. -/
def followRequest (tok meId targetUserId : String) : Request :=
  { method := "POST", url := TWITTER_API_BASE ++ "/users/" ++ meId ++ "/following", bearer := tok,
    params := [], jsonBody := some (.obj [("target_user_id", .str targetUserId)]) }

/-- The request issued by `unfollow_user` after identity resolution. -/
def unfollowRequest (tok meId targetUserId : String) : Request :=
  { method := "DELETE",
    url := TWITTER_API_BASE ++ "/users/" ++ meId ++ "/following/" ++ targetUserId,
    bearer := tok, params := [], jsonBody := none }

/-- Common shape of the six engagement operations: resolve the identity, return
early when `_get_me_id` produced a dict, else issue the given request. -/
def engageWith (net : Net) (tok : String) (cache : Option JVal)
    (mkReq : String → Request) : PyM JVal × Option JVal × List Request :=
  match getMeId net tok cache with
  | (.error e, c, tr) => (.error e, c, tr)
  | (.ok me, c, tr) =>
    match me with
    | .obj kvs => (.ok (.obj kvs), c, tr)
    | v =>
      let req := mkReq (pyStr v)
      (twitterSend net req, c, tr ++ [req])

/-- `_TwitterClient.like_tweet`. -/
def likeTweetOp (net : Net) (tok : String) (cache : Option JVal) (tweetId : String) :
    PyM JVal × Option JVal × List Request :=
  engageWith net tok cache (fun meId => likeRequest tok meId tweetId)

/-- `_TwitterClient.unlike_tweet`. -/
def unlikeTweetOp (net : Net) (tok : String) (cache : Option JVal) (tweetId : String) :
    PyM JVal × Option JVal × List Request :=
  engageWith net tok cache (fun meId => unlikeRequest tok meId tweetId)

/-- `_TwitterClient.retweet`. -/
def retweetOp (net : Net) (tok : String) (cache : Option JVal) (tweetId : String) :
    PyM JVal × Option JVal × List Request :=
  engageWith net tok cache (fun meId => retweetRequest tok meId tweetId)

/-- `_TwitterClient.undo_retweet`. -/
def undoRetweetOp (net : Net) (tok : String) (cache : Option JVal) (tweetId : String) :
    PyM JVal × Option JVal × List Request :=
  engageWith net tok cache (fun meId => undoRetweetRequest tok meId tweetId)

/-- `_TwitterClient.follow_user`. -/
def followUserOp (net : Net) (tok : String) (cache : Option JVal) (targetUserId : String) :
    PyM JVal × Option JVal × List Request :=
  engageWith net tok cache (fun meId => followRequest tok meId targetUserId)

/-- `_TwitterClient.unfollow_user`. -/
def unfollowUserOp (net : Net) (tok : String) (cache : Option JVal) (targetUserId : String) :
    PyM JVal × Option JVal × List Request :=
  engageWith net tok cache (fun meId => unfollowRequest tok meId targetUserId)

/-- The request issued by `get_user`. -/
def getUserRequest (tok username : String) : Request :=
  { method := "GET", url := TWITTER_API_BASE ++ "/users/by/username/" ++ username, bearer := tok,
    params := [("user.fields", .str "created_at,description,public_metrics,verified")],
    jsonBody := none }

/-- `_TwitterClient.get_user`. -/
def getUserOp (net : Net) (tok username : String) : PyM JVal × List Request :=
  let req := getUserRequest tok username
  (twitterSend net req, [req])

/-- The request issued by `get_followers`; `max_results` is sent as
`min(max_results, 1000)` (no floor). -/
def getFollowersRequest (tok userId : String) (maxResults : Int)
    (paginationToken : Option String) : Request :=
  { method := "GET", url := TWITTER_API_BASE ++ "/users/" ++ userId ++ "/followers",
    bearer := tok,
    params := [("max_results", .int (min maxResults 1000)),
               ("user.fields", .str "created_at,description,public_metrics")] ++
      (if optTruthy paginationToken then
        [("pagination_token", .str (paginationToken.getD ""))]
      else []),
    jsonBody := none }

/-- `_TwitterClient.get_followers`. -/
def getFollowersOp (net : Net) (tok userId : String) (maxResults : Int)
    (paginationToken : Option String) : PyM JVal × List Request :=
  let req := getFollowersRequest tok userId maxResults paginationToken
  (twitterSend net req, [req])

/-- The request issued by `get_following`; `max_results` is sent as
`min(max_results, 1000)` (no floor). -/
def getFollowingRequest (tok userId : String) (maxResults : Int)
    (paginationToken : Option String) : Request :=
  { method := "GET", url := TWITTER_API_BASE ++ "/users/" ++ userId ++ "/following",
    bearer := tok,
    params := [("max_results", .int (min maxResults 1000)),
               ("user.fields", .str "created_at,description,public_metrics")] ++
      (if optTruthy paginationToken then
        [("pagination_token", .str (paginationToken.getD ""))]
      else []),
    jsonBody := none }

/-- `_TwitterClient.get_following`. -/
def getFollowingOp (net : Net) (tok userId : String) (maxResults : Int)
    (paginationToken : Option String) : PyM JVal × List Request :=
  let req := getFollowingRequest tok userId maxResults paginationToken
  (twitterSend net req, [req])

/-- The request issued by `get_user_tweets`; `max_results` is sent as
`max(5, min(max_results, 100))`. -/
def getUserTweetsRequest (tok userId : String) (maxResults : Int)
    (paginationToken : Option String) (tweetFields : String) : Request :=
  { method := "GET", url := TWITTER_API_BASE ++ "/users/" ++ userId ++ "/tweets", bearer := tok,
    params := [("max_results", .int (max 5 (min maxResults 100))),
               ("tweet.fields", .str tweetFields)] ++
      (if optTruthy paginationToken then
        [("pagination_token", .str (paginationToken.getD ""))]
      else []),
    jsonBody := none }

/-- `_TwitterClient.get_user_tweets`. -/
def getUserTweetsOp (net : Net) (tok userId : String) (maxResults : Int)
    (paginationToken : Option String) (tweetFields : String) : PyM JVal × List Request :=
  let req := getUserTweetsRequest tok userId maxResults paginationToken tweetFields
  (twitterSend net req, [req])

/-- The request issued by `get_mentions`; `max_results` is sent as
`max(5, min(max_results, 100))`. -/
def getMentionsRequest (tok userId : String) (maxResults : Int)
    (paginationToken : Option String) (tweetFields : String) : Request :=
  { method := "GET", url := TWITTER_API_BASE ++ "/users/" ++ userId ++ "/mentions", bearer := tok,
    params := [("max_results", .int (max 5 (min maxResults 100))),
               ("tweet.fields", .str tweetFields)] ++
      (if optTruthy paginationToken then
        [("pagination_token", .str (paginationToken.getD ""))]
      else []),
    jsonBody := none }

/-- `_TwitterClient.get_mentions`. -/
def getMentionsOp (net : Net) (tok userId : String) (maxResults : Int)
    (paginationToken : Option String) (tweetFields : String) : PyM JVal × List Request :=
  let req := getMentionsRequest tok userId maxResults paginationToken tweetFields
  (twitterSend net req, [req])

/-! ## Credential store adapter and token resolution -/

/-- A value returned by `credentials.get(name)`: absent (`None`), a string, or
some other Python value (recorded by its type name). -/
inductive StoreVal where
  | absent
  | str (s : String)
  | other (tyName : String)

/-- A credential store adapter, as seen through its `get` method. -/
abbrev Store : Type := String → StoreVal

/-- Twitter `_get_token`:

```python
if credentials is not None:
    token = credentials.get("twitter")
    if token is not None and not isinstance(token, str):
        raise TypeError(...)
    return token
return os.getenv("TWITTER_BEARER_TOKEN")
```
-/
def twitterGetToken (credentials : Option Store) (env : Env) : PyM (Option String) :=
  match credentials with
  | some st =>
    match st "twitter" with
    | .absent => .ok none
    | .str s => .ok (some s)
    | .other ty =>
      .error (.typeError
        ("Expected string from credentials.get(\x27twitter\x27), got " ++ ty))
  | none => .ok (getenv env "TWITTER_BEARER_TOKEN")

/-- The error mapping returned by the Twitter `_get_client` when no credential
is configured. -/
def twitterNoCreds : JVal :=
  .obj [("error", .str "Twitter credentials not configured"),
        ("help", .str ("Set TWITTER_BEARER_TOKEN environment variable " ++
          "or connect Twitter via hive.adenhq.com"))]

/-- Twitter `_get_client`: the token when truthy (`Sum.inr`), else the
"not configured" error mapping (`Sum.inl`). -/
def twitterGetClient (credentials : Option Store) (env : Env) : PyM (JVal ⊕ String) :=
  match twitterGetToken credentials env with
  | .error e => .error e
  | .ok t =>
    match t with
    | none => .ok (.inl twitterNoCreds)
    | some s => if s == "" then .ok (.inl twitterNoCreds) else .ok (.inr s)

/-- The `except httpx.TimeoutException / except httpx.RequestError` handlers
wrapped around every tool body; all other exceptions propagate. -/
def catchTransport : PyM JVal → PyM JVal
  | .error .timeout => .ok (errObj "Request timed out")
  | .error (.netError m) => .ok (errObj ("Network error: " ++ m))
  | r => r

/-! ## Post-processing done by the registered Twitter tools -/

/-- `if "error" in result: return result` followed by returning `result`
unchanged (the read-only tools). -/
def passResult (r : PyM JVal) : PyM JVal := do
  let result ← r
  let b ← pyInError result
  if b then return result
  return result

/-- `if "error" in result: return result` followed by
`x = result.get("data", {}).get(inKey, dflt); return {"success": True, outKey: x}`
(the mutating tools). -/
def shapeDataField (inKey outKey : String) (dflt : JVal) (r : PyM JVal) : PyM JVal := do
  let result ← r
  let b ← pyInError result
  if b then return result
  let data ← jgetAttr result "data" (.obj [])
  let v ← jgetAttr data inKey dflt
  return .obj [("success", .bool true), (outKey, v)]

/-- The shaping done by `twitter_post_tweet`:
`{"success": True, "tweet_id": data.get("id"), "text": data.get("text")}`. -/
def shapePostTweet (r : PyM JVal) : PyM JVal := do
  let result ← r
  let b ← pyInError result
  if b then return result
  let data ← jgetAttr result "data" (.obj [])
  let idv ← jgetAttr data "id" .null
  let tv ← jgetAttr data "text" .null
  return .obj [("success", .bool true), ("tweet_id", idv), ("text", tv)]

/-! ## Registered Twitter tools

Each registered tool gets a fresh client (`_get_client()`), returns the error
mapping directly when credentials are missing, and wraps the client call in the
transport-exception handlers. -/

/-- Registered tool `twitter_post_tweet`. -/
def twitter_post_tweet (credentials : Option Store) (env : Env) (net : Net)
    (text replyTo : String) : PyM JVal × List Request :=
  match twitterGetClient credentials env with
  | .error e => (.error e, [])
  | .ok (.inl d) => (.ok d, [])
  | .ok (.inr tok) =>
    let (r, tr) := postTweetOp net tok text (if replyTo == "" then none else some replyTo)
    (catchTransport (shapePostTweet r), tr)

/-- Registered tool `twitter_delete_tweet`. -/
def twitter_delete_tweet (credentials : Option Store) (env : Env) (net : Net)
    (tweetId : String) : PyM JVal × List Request :=
  match twitterGetClient credentials env with
  | .error e => (.error e, [])
  | .ok (.inl d) => (.ok d, [])
  | .ok (.inr tok) =>
    let (r, tr) := deleteTweetOp net tok tweetId
    (catchTransport (shapeDataField "deleted" "deleted" (.bool false) r), tr)

/-- Registered tool `twitter_get_tweet`. -/
def twitter_get_tweet (credentials : Option Store) (env : Env) (net : Net)
    (tweetId tweetFields : String) : PyM JVal × List Request :=
  match twitterGetClient credentials env with
  | .error e => (.error e, [])
  | .ok (.inl d) => (.ok d, [])
  | .ok (.inr tok) =>
    let (r, tr) := getTweetOp net tok tweetId tweetFields
    (catchTransport (passResult r), tr)

/-- Registered tool `twitter_search_tweets`. -/
def twitter_search_tweets (credentials : Option Store) (env : Env) (net : Net)
    (query : String) (maxResults : Int) (tweetFields : String) : PyM JVal × List Request :=
  match twitterGetClient credentials env with
  | .error e => (.error e, [])
  | .ok (.inl d) => (.ok d, [])
  | .ok (.inr tok) =>
    let (r, tr) := searchTweetsOp net tok query maxResults tweetFields
    (catchTransport (passResult r), tr)

/-- Registered tool `twitter_like_tweet`. -/
def twitter_like_tweet (credentials : Option Store) (env : Env) (net : Net)
    (tweetId : String) : PyM JVal × List Request :=
  match twitterGetClient credentials env with
  | .error e => (.error e, [])
  | .ok (.inl d) => (.ok d, [])
  | .ok (.inr tok) =>
    let (r, _, tr) := likeTweetOp net tok none tweetId
    (catchTransport (shapeDataField "liked" "liked" (.bool false) r), tr)

/-- Registered tool `twitter_unlike_tweet`. -/
def twitter_unlike_tweet (credentials : Option Store) (env : Env) (net : Net)
    (tweetId : String) : PyM JVal × List Request :=
  match twitterGetClient credentials env with
  | .error e => (.error e, [])
  | .ok (.inl d) => (.ok d, [])
  | .ok (.inr tok) =>
    let (r, _, tr) := unlikeTweetOp net tok none tweetId
    (catchTransport (shapeDataField "liked" "liked" (.bool false) r), tr)

/-- Registered tool `twitter_retweet`. -/
def twitter_retweet (credentials : Option Store) (env : Env) (net : Net)
    (tweetId : String) : PyM JVal × List Request :=
  match twitterGetClient credentials env with
  | .error e => (.error e, [])
  | .ok (.inl d) => (.ok d, [])
  | .ok (.inr tok) =>
    let (r, _, tr) := retweetOp net tok none tweetId
    (catchTransport (shapeDataField "retweeted" "retweeted" (.bool false) r), tr)

/-- Registered tool `twitter_undo_retweet`. -/
def twitter_undo_retweet (credentials : Option Store) (env : Env) (net : Net)
    (tweetId : String) : PyM JVal × List Request :=
  match twitterGetClient credentials env with
  | .error e => (.error e, [])
  | .ok (.inl d) => (.ok d, [])
  | .ok (.inr tok) =>
    let (r, _, tr) := undoRetweetOp net tok none tweetId
    (catchTransport (shapeDataField "retweeted" "retweeted" (.bool false) r), tr)

/-- Registered tool `twitter_get_user`. -/
def twitter_get_user (credentials : Option Store) (env : Env) (net : Net)
    (username : String) : PyM JVal × List Request :=
  match twitterGetClient credentials env with
  | .error e => (.error e, [])
  | .ok (.inl d) => (.ok d, [])
  | .ok (.inr tok) =>
    let (r, tr) := getUserOp net tok username
    (catchTransport (passResult r), tr)

/-- Registered tool `twitter_follow_user`. -/
def twitter_follow_user (credentials : Option Store) (env : Env) (net : Net)
    (targetUserId : String) : PyM JVal × List Request :=
  match twitterGetClient credentials env with
  | .error e => (.error e, [])
  | .ok (.inl d) => (.ok d, [])
  | .ok (.inr tok) =>
    let (r, _, tr) := followUserOp net tok none targetUserId
    (catchTransport (shapeDataField "following" "following" (.bool false) r), tr)

/-- Registered tool `twitter_unfollow_user` (note the `True` default for
`following`). -/
def twitter_unfollow_user (credentials : Option Store) (env : Env) (net : Net)
    (targetUserId : String) : PyM JVal × List Request :=
  match twitterGetClient credentials env with
  | .error e => (.error e, [])
  | .ok (.inl d) => (.ok d, [])
  | .ok (.inr tok) =>
    let (r, _, tr) := unfollowUserOp net tok none targetUserId
    (catchTransport (shapeDataField "following" "following" (.bool true) r), tr)

/-- Registered tool `twitter_get_followers`. -/
def twitter_get_followers (credentials : Option Store) (env : Env) (net : Net)
    (userId : String) (maxResults : Int) (paginationToken : String) : PyM JVal × List Request :=
  match twitterGetClient credentials env with
  | .error e => (.error e, [])
  | .ok (.inl d) => (.ok d, [])
  | .ok (.inr tok) =>
    let (r, tr) := getFollowersOp net tok userId maxResults
      (if paginationToken == "" then none else some paginationToken)
    (catchTransport (passResult r), tr)

/-- Registered tool `twitter_get_following`. -/
def twitter_get_following (credentials : Option Store) (env : Env) (net : Net)
    (userId : String) (maxResults : Int) (paginationToken : String) : PyM JVal × List Request :=
  match twitterGetClient credentials env with
  | .error e => (.error e, [])
  | .ok (.inl d) => (.ok d, [])
  | .ok (.inr tok) =>
    let (r, tr) := getFollowingOp net tok userId maxResults
      (if paginationToken == "" then none else some paginationToken)
    (catchTransport (passResult r), tr)

/-- Registered tool `twitter_get_user_tweets`. -/
def twitter_get_user_tweets (credentials : Option Store) (env : Env) (net : Net)
    (userId : String) (maxResults : Int) (paginationToken tweetFields : String) :
    PyM JVal × List Request :=
  match twitterGetClient credentials env with
  | .error e => (.error e, [])
  | .ok (.inl d) => (.ok d, [])
  | .ok (.inr tok) =>
    let (r, tr) := getUserTweetsOp net tok userId maxResults
      (if paginationToken == "" then none else some paginationToken) tweetFields
    (catchTransport (passResult r), tr)

/-- Registered tool `twitter_get_mentions`. -/
def twitter_get_mentions (credentials : Option Store) (env : Env) (net : Net)
    (userId : String) (maxResults : Int) (paginationToken tweetFields : String) :
    PyM JVal × List Request :=
  match twitterGetClient credentials env with
  | .error e => (.error e, [])
  | .ok (.inl d) => (.ok d, [])
  | .ok (.inr tok) =>
    let (r, tr) := getMentionsOp net tok userId maxResults
      (if paginationToken == "" then none else some paginationToken) tweetFields
    (catchTransport (passResult r), tr)

/-! ## Google Docs client operations (`_GoogleDocsClient`) -/

def GOOGLE_DOCS_API_BASE : String := "https://docs.googleapis.com/v1"

/-- The request issued by `create_document`. -/
def createDocumentRequest (tok title : String) : Request :=
  { method := "POST", url := GOOGLE_DOCS_API_BASE ++ "/documents", bearer := tok, params := [],
    jsonBody := some (.obj [("title", .str title)]) }

/-- `_GoogleDocsClient.create_document`. -/
def createDocumentOp (net : Net) (tok title : String) : PyM JVal × List Request :=
  let req := createDocumentRequest tok title
  (googleSend net req, [req])

/-- The request issued by `get_document`. -/
def getDocumentRequest (tok documentId : String) : Request :=
  { method := "GET", url := GOOGLE_DOCS_API_BASE ++ "/documents/" ++ documentId, bearer := tok,
    params := [], jsonBody := none }

/-- `_GoogleDocsClient.get_document`. -/
def getDocumentOp (net : Net) (tok documentId : String) : PyM JVal × List Request :=
  let req := getDocumentRequest tok documentId
  (googleSend net req, [req])

/-- The request issued by `batch_update`. -/
def batchUpdateRequest (tok documentId : String) (requests : List JVal) : Request :=
  { method := "POST", url := GOOGLE_DOCS_API_BASE ++ "/documents/" ++ documentId ++ ":batchUpdate",
    bearer := tok, params := [], jsonBody := some (.obj [("requests", .arr requests)]) }

/-- `_GoogleDocsClient.batch_update`. -/
def batchUpdateOp (net : Net) (tok documentId : String) (requests : List JVal) :
    PyM JVal × List Request :=
  let req := batchUpdateRequest tok documentId requests
  (googleSend net req, [req])

/-- Python `x[-1]`: the last element of a list, the last character of a string;
`KeyError` for a JSON object (string keys only), `TypeError` otherwise. -/
def pyIndexLast : JVal → PyM JVal
  | .arr xs =>
    match xs.getLast? with
    | some v => .ok v
    | none => .error .indexError
  | .str s =>
    match s.data.getLast? with
    | some c => .ok (.str (String.mk [c]))
    | none => .error .indexError
  | .obj _ => .error .keyError
  | _ => .error (.typeError "not subscriptable")

/-- Python `x - 1` on a JSON value (`bool` participates in int arithmetic). -/
def pySubOne : JVal → PyM Int
  | .int n => .ok (n - 1)
  | .bool b => .ok ((if b then (1 : Int) else 0) - 1)
  | _ => .error (.typeError "unsupported operand")

/-- The end-of-document index computation in `insert_text` when no index is
given:

```python
body = doc.get("body", {})
content = body.get("content", [])
if content:
    last_element = content[-1]
    end_index = last_element.get("endIndex", 1)
    location["index"] = end_index - 1
else:
    location["index"] = 1
```
-/
def insertEndIndex (doc : JVal) : PyM Int := do
  let body ← jgetAttr doc "body" (.obj [])
  let content ← jgetAttr body "content" (.arr [])
  if jTruthy content then
    let lastElement ← pyIndexLast content
    let endIndex ← jgetAttr lastElement "endIndex" (.int 1)
    let i ← pySubOne endIndex
    return i
  else
    return 1

/-- The `location` object built by `insert_text`. -/
def insertLocation (segmentId : Option String) (i : Int) : JVal :=
  .obj ((if optTruthy segmentId then [("segmentId", .str (segmentId.getD ""))] else []) ++
    [("index", .int i)])

/-- The `insertText` batch-update request object. -/
def insertTextBody (location : JVal) (text : String) : JVal :=
  .obj [("insertText", .obj [("location", location), ("text", .str text)])]

/-- `_GoogleDocsClient.insert_text`: with an explicit index, one
`batch_update`; without one, `get_document` first (propagating its error
result), then `batch_update` at the computed end index. -/
def insertTextOp (net : Net) (tok documentId text : String) (index : Option Int)
    (segmentId : Option String) : PyM JVal × List Request :=
  match index with
  | some i =>
    batchUpdateOp net tok documentId [insertTextBody (insertLocation segmentId i) text]
  | none =>
    let (d, tr1) := getDocumentOp net tok documentId
    match d with
    | .error e => (.error e, tr1)
    | .ok doc =>
      match pyInError doc with
      | .error e => (.error e, tr1)
      | .ok true => (.ok doc, tr1)
      | .ok false =>
        match insertEndIndex doc with
        | .error e => (.error e, tr1)
        | .ok i =>
          let (r, tr2) :=
            batchUpdateOp net tok documentId [insertTextBody (insertLocation segmentId i) text]
          (r, tr1 ++ tr2)

/-- The `replaceAllText` batch-update request object. -/
def replaceAllTextBody (findText replaceText : String) (matchCase : Bool) : JVal :=
  .obj [("replaceAllText",
    .obj [("containsText", .obj [("text", .str findText), ("matchCase", .bool matchCase)]),
          ("replaceText", .str replaceText)])]

/-- `_GoogleDocsClient.replace_all_text`. -/
def replaceAllTextOp (net : Net) (tok documentId findText replaceText : String)
    (matchCase : Bool) : PyM JVal × List Request :=
  batchUpdateOp net tok documentId [replaceAllTextBody findText replaceText matchCase]

/-! ## Google Docs token resolution and registered tools -/

/-- Google Docs `_get_token`.  `parse` models `json.loads`
(`Except.error` marks a `json.JSONDecodeError`):

```python
if credentials is not None:
    token = credentials.get("google_docs")
    if token is not None and not isinstance(token, str): raise TypeError(...)
    return token
token = os.getenv("GOOGLE_DOCS_ACCESS_TOKEN")
if token: return token
service_account = os.getenv("GOOGLE_SERVICE_ACCOUNT_JSON")
if service_account:
    try:
        sa_data = json.loads(service_account)
        return sa_data.get("access_token")
    except json.JSONDecodeError:
        return None
return None
```
-/
def googleGetToken (parse : String → Except Unit JVal) (credentials : Option Store)
    (env : Env) : PyM (Option JVal) :=
  match credentials with
  | some st =>
    match st "google_docs" with
    | .absent => .ok none
    | .str s => .ok (some (.str s))
    | .other ty =>
      .error (.typeError
        ("Expected string from credentials.get(\x27google_docs\x27), got " ++ ty))
  | none =>
    let fromServiceAccount : PyM (Option JVal) :=
      match getenv env "GOOGLE_SERVICE_ACCOUNT_JSON" with
      | some sa =>
        if sa == "" then .ok none
        else
          match parse sa with
          | .error _ => .ok none
          | .ok (.obj kvs) => .ok (jget kvs "access_token")
          | .ok _ => .error .attributeError
      | none => .ok none
    match getenv env "GOOGLE_DOCS_ACCESS_TOKEN" with
    | some t => if t == "" then fromServiceAccount else .ok (some (.str t))
    | none => fromServiceAccount

/-- The error mapping returned by the Google Docs `_get_client` when no
credential is configured. -/
def googleNoCreds : JVal :=
  .obj [("error", .str "Google Docs credentials not configured"),
        ("help", .str ("Set GOOGLE_DOCS_ACCESS_TOKEN environment variable " ++
          "or configure via credential store. " ++
          "Get credentials at: https://console.cloud.google.com/apis/credentials"))]

/-- Google Docs `_get_client`: the token (as the string the `Authorization`
header interpolates) when truthy, else the "not configured" error mapping. -/
def googleGetClient (parse : String → Except Unit JVal) (credentials : Option Store)
    (env : Env) : PyM (JVal ⊕ String) :=
  match googleGetToken parse credentials env with
  | .error e => .error e
  | .ok t =>
    match t with
    | none => .ok (.inl googleNoCreds)
    | some v => if jTruthy v then .ok (.inr (pyStr v)) else .ok (.inl googleNoCreds)

/-- Python `for x in v`: list elements, dict keys, string characters;
`TypeError` otherwise. -/
def pyIterList : JVal → PyM (List JVal)
  | .arr xs => .ok xs
  | .obj kvs => .ok (kvs.map (fun p => .str p.1))
  | .str s => .ok (s.data.map (fun c => .str (String.mk [c])))
  | _ => .error (.typeError "not iterable")

/-- One step of the `occurrences` accumulation in
`google_docs_replace_all_text`. -/
def addOccurrence (acc : PyM Int) (reply : JVal) : PyM Int := do
  let a ← acc
  let rr ← jgetAttr reply "replaceAllText" (.obj [])
  let oc ← jgetAttr rr "occurrencesChanged" (.int 0)
  match oc with
  | .int n => return (a + n)
  | .bool b => return (a + (if b then 1 else 0))
  | _ => .error (.typeError "unsupported operand")

/-- `occurrences` summed over the batch replies. -/
def countOccurrences (items : List JVal) : PyM Int :=
  items.foldl addOccurrence (.ok 0)

/-- The shaping done by `google_docs_create_document` on a non-error result. -/
def shapeCreateDocument (r : PyM JVal) : PyM JVal := do
  let result ← r
  let b ← pyInError result
  if b then return result
  let docIdv ← jgetAttr result "documentId" .null
  let titlev ← jgetAttr result "title" .null
  return .obj [("document_id", docIdv), ("title", titlev),
    ("document_url", .str ("https://docs.google.com/document/d/" ++ pyStr docIdv ++ "/edit"))]

/-- The shaping done by `google_docs_replace_all_text` on a non-error
result. -/
def shapeReplaceAll (documentId findText replaceText : String) (r : PyM JVal) : PyM JVal := do
  let result ← r
  let b ← pyInError result
  if b then return result
  let replies ← jgetAttr result "replies" (.arr [])
  let items ← pyIterList replies
  let occurrences ← countOccurrences items
  return .obj [("document_id", .str documentId), ("find_text", .str findText),
    ("replace_text", .str replaceText), ("occurrences_replaced", .int occurrences)]

/-- Registered tool `google_docs_create_document`. -/
def google_docs_create_document (parse : String → Except Unit JVal)
    (credentials : Option Store) (env : Env) (net : Net) (title : String) :
    PyM JVal × List Request :=
  match googleGetClient parse credentials env with
  | .error e => (.error e, [])
  | .ok (.inl d) => (.ok d, [])
  | .ok (.inr tok) =>
    let (r, tr) := createDocumentOp net tok title
    (catchTransport (shapeCreateDocument r), tr)

/-- Registered tool `google_docs_get_document`. -/
def google_docs_get_document (parse : String → Except Unit JVal)
    (credentials : Option Store) (env : Env) (net : Net) (documentId : String) :
    PyM JVal × List Request :=
  match googleGetClient parse credentials env with
  | .error e => (.error e, [])
  | .ok (.inl d) => (.ok d, [])
  | .ok (.inr tok) =>
    let (r, tr) := getDocumentOp net tok documentId
    (catchTransport r, tr)

/-- Registered tool `google_docs_insert_text`. -/
def google_docs_insert_text (parse : String → Except Unit JVal)
    (credentials : Option Store) (env : Env) (net : Net) (documentId text : String)
    (index : Option Int) : PyM JVal × List Request :=
  match googleGetClient parse credentials env with
  | .error e => (.error e, [])
  | .ok (.inl d) => (.ok d, [])
  | .ok (.inr tok) =>
    let (r, tr) := insertTextOp net tok documentId text index none
    (catchTransport r, tr)

/-- Registered tool `google_docs_replace_all_text`. -/
def google_docs_replace_all_text (parse : String → Except Unit JVal)
    (credentials : Option Store) (env : Env) (net : Net)
    (documentId findText replaceText : String) (matchCase : Bool) : PyM JVal × List Request :=
  match googleGetClient parse credentials env with
  | .error e => (.error e, [])
  | .ok (.inl d) => (.ok d, [])
  | .ok (.inr tok) =>
    let (r, tr) := replaceAllTextOp net tok documentId findText replaceText matchCase
    (catchTransport (shapeReplaceAll documentId findText replaceText r), tr)

/-! ## Auxiliary definitions used to state the claims -/

/-- Value of a query parameter of a request. -/
def paramGet (q : Request) (k : String) : Option JVal :=
  match q.params.find? (fun p => p.1 == k) with
  | some p => some p.2
  | none => none

/-- The `max_results` parameter sent upstream, provided exactly one request was
issued. -/
def sentMaxResults (tr : List Request) : Option JVal :=
  match tr with
  | [q] => paramGet q "max_results"
  | _ => none

/-- Whether a request targets the `/users/me` identity endpoint. -/
def isMeReq (q : Request) : Bool :=
  q.url == TWITTER_API_BASE ++ "/users/me"

/-- Number of identity requests in a trace. -/
def countMe (tr : List Request) : Nat :=
  (tr.filter isMeReq).length

/-- A call is successful when it neither raised nor returned an error
mapping. -/
def successful : PyM JVal → Bool
  | .ok v =>
    match pyInError v with
    | .ok b => !b
    | .error _ => false
  | .error _ => false

/-- All calls in a list are successful. -/
def allSuccessful (rs : List (PyM JVal)) : Bool :=
  rs.all successful

/-- One engagement operation of a `_TwitterClient` instance. -/
inductive EngageCall where
  | like (tweetId : String)
  | unlike (tweetId : String)
  | retweet (tweetId : String)
  | undoRetweet (tweetId : String)
  | follow (userId : String)
  | unfollow (userId : String)

/-- Run one engagement operation against the client's cache. -/
def runEngage (net : Net) (tok : String) (cache : Option JVal) :
    EngageCall → PyM JVal × Option JVal × List Request
  | .like tid => likeTweetOp net tok cache tid
  | .unlike tid => unlikeTweetOp net tok cache tid
  | .retweet tid => retweetOp net tok cache tid
  | .undoRetweet tid => undoRetweetOp net tok cache tid
  | .follow uid => followUserOp net tok cache uid
  | .unfollow uid => unfollowUserOp net tok cache uid

/-- The mutating request an engagement operation would issue for a given
resolved identity. -/
def mkReqOf (tok : String) : EngageCall → String → Request
  | .like tid => fun meId => likeRequest tok meId tid
  | .unlike tid => fun meId => unlikeRequest tok meId tid
  | .retweet tid => fun meId => retweetRequest tok meId tid
  | .undoRetweet tid => fun meId => undoRetweetRequest tok meId tid
  | .follow uid => fun meId => followRequest tok meId uid
  | .unfollow uid => fun meId => unfollowRequest tok meId uid

/-- Run a sequence of engagement operations on one client instance, threading
the identity cache and collecting the results and the full request trace. -/
def runEngageSeq (net : Net) (tok : String) (cache : Option JVal) :
    List EngageCall → List (PyM JVal) × Option JVal × List Request
  | [] => ([], cache, [])
  | c :: cs =>
    let (r, cache1, tr) := runEngage net tok cache c
    let (rs, cache2, trs) := runEngageSeq net tok cache1 cs
    (r :: rs, cache2, tr ++ trs)

/-- Contract of the identity endpoint assumed by C6: bodies of parsed (200/201)
`/users/me` responses are JSON objects, as the Twitter API documents. -/
def meNetOk (net : Net) (tok : String) : Prop :=
  ∀ (r : HttpResponse) (j : JVal), net (meRequest tok) = .resp r →
    r.status = 200 ∨ r.status = 201 → r.body = some j → ∃ kvs, j = .obj kvs

/-- The resolution chain exactly as claim C1 states it, built from the claim's
words for comparison with the code: the credential-store value when one is
available, otherwise the declared environment variable's value, otherwise
absent. -/
def resolveClaimC1 (storeVal envVal : Option String) : Option String :=
  match storeVal with
  | some v => some v
  | none => envVal

/-- A concrete `json.loads` oracle mapping the string "SA" to a JSON object
holding an `access_token`. -/
def saParse : String → Except Unit JVal :=
  fun s => if s == "SA" then .ok (.obj [("access_token", .str "tok")]) else .error ()

/-- An environment where the declared Google Docs variable is unset but the
service-account JSON variable is set. -/
def envServiceAccount : Env := [("GOOGLE_SERVICE_ACCOUNT_JSON", "SA")]

/-- The environment in which the Twitter bearer token is configured as the
empty string (and no credential store is supplied). -/
def envEmptyTwitterToken : Env := [("TWITTER_BEARER_TOKEN", "")]

/-- A document whose last content element has `endIndex` 7, used by the C5
witness. -/
def docSeven : JVal :=
  .obj [("title", .str "T"),
        ("body", .obj [("content", .arr [.obj [("endIndex", .int 7)]])])]

/-- A network oracle that serves `docSeven` for the document fetch and a plain
object for anything else, used by the C5 witness. -/
def netDocSeven : Net := fun req =>
  if req.url == GOOGLE_DOCS_API_BASE ++ "/documents/d" then
    .resp { status := 200, body := some docSeven, text := "", headers := [] }
  else
    .resp { status := 200, body := some (.obj [("done", .bool true)]), text := "", headers := [] }

/-- A network oracle serving a well-formed identity response and a plain
engagement response, used by the C6 witness. -/
def netMeWell : Net := fun req =>
  if req.url == TWITTER_API_BASE ++ "/users/me" then
    .resp { status := 200, body := some (.obj [("data", .obj [("id", .str "42")])]),
            text := "", headers := [] }
  else
    .resp { status := 200, body := some (.obj [("data", .obj [("liked", .bool true)])]),
            text := "", headers := [] }

/-- A network oracle answering 401 to everything, used by the C6 witness. -/
def netAll401 : Net := fun _ =>
  .resp { status := 401, body := none, text := "", headers := [] }

/-- Twitter body shape assumed by the C2 totality theorem: a JSON object whose
`data` member, when present, is itself an object (what the post-processing
`result.get("data", {}).get(...)` chains require). -/
def bodyShapely (j : JVal) : Bool :=
  match j with
  | .obj kvs =>
    match jget kvs "data" with
    | none => true
    | some (.obj _) => true
    | some _ => false
  | _ => false

/-- Identity body shape assumed by the C2 totality theorem: `data.id` present
and a string (what `result["data"]["id"]` requires). -/
def meBodyOk (j : JVal) : Bool :=
  match j with
  | .obj kvs =>
    match jget kvs "data" with
    | some (.obj d) =>
      match jget d "id" with
      | some (.str _) => true
      | _ => false
    | _ => false
  | _ => false

/-- Network contract under which the Twitter tools are total: every parsed
(200/201) body exists and is shapely, identity bodies carry a string id, and
the identity endpoint never answers 204. -/
def twitterNetOk (net : Net) : Prop :=
  ∀ (req : Request) (r : HttpResponse), net req = .resp r →
    ((r.status = 200 ∨ r.status = 201) →
      ∃ j, r.body = some j ∧ bodyShapely j = true ∧
        (req.url = TWITTER_API_BASE ++ "/users/me" → meBodyOk j = true)) ∧
    (req.url = TWITTER_API_BASE ++ "/users/me" → r.status ≠ 204)

/-- Google document shape assumed by the C2 totality theorem: the
`body.content` chain used by `insert_text` is absent or well-formed (list whose
last element is an object with an integer or absent `endIndex`). -/
def gBodyContentOk (kvs : List (String × JVal)) : Bool :=
  match jget kvs "body" with
  | none => true
  | some (.obj b) =>
    match jget b "content" with
    | none => true
    | some (.arr cs) =>
      match cs.getLast? with
      | none => true
      | some (.obj l) =>
        match jget l "endIndex" with
        | none => true
        | some (.int _) => true
        | some _ => false
      | some _ => false
    | some _ => false
  | some _ => false

/-- One batch reply as `google_docs_replace_all_text` expects it. -/
def gReplyOk (reply : JVal) : Bool :=
  match reply with
  | .obj rk =>
    match jget rk "replaceAllText" with
    | none => true
    | some (.obj a) =>
      match jget a "occurrencesChanged" with
      | none => true
      | some (.int _) => true
      | some _ => false
    | some _ => false
  | _ => false

/-- The `replies` member as `google_docs_replace_all_text` expects it. -/
def gRepliesOk (kvs : List (String × JVal)) : Bool :=
  match jget kvs "replies" with
  | none => true
  | some (.arr rs) => rs.all gReplyOk
  | some _ => false

/-- Google body shape assumed by the C2 totality theorem. -/
def gBodyOk (j : JVal) : Bool :=
  match j with
  | .obj kvs => gBodyContentOk kvs && gRepliesOk kvs
  | _ => false

/-- Network contract under which the Google Docs tools are total: every
response with status below 400 carries a parseable, well-shaped JSON object
body (in particular, no 204 with an empty body). -/
def googleNetOk (net : Net) : Prop :=
  ∀ (req : Request) (r : HttpResponse), net req = .resp r → r.status < 400 →
    ∃ j, r.body = some j ∧ gBodyOk j = true

/-- The credential store yields only strings or absent (its documented
contract); a non-string value makes `_get_token` raise. -/
def storeStrOnly (credentials : Option Store) : Prop :=
  ∀ (st : Store) (name ty : String), credentials = some st → st name ≠ .other ty

/-- The service-account variable, when set and nonempty, parses as malformed
or as a JSON object; a non-object parse makes the Google `_get_token`
raise. -/
def saParseOk (parse : String → Except Unit JVal) (env : Env) : Prop :=
  ∀ sa, getenv env "GOOGLE_SERVICE_ACCOUNT_JSON" = some sa → sa ≠ "" →
    (∃ u, parse sa = .error u) ∨ (∃ kvs, parse sa = .ok (.obj kvs))

/-! ## General lemmas -/

/-- A substring of `a` is a substring of `a ++ b`. -/
theorem strContains_append_left (a b pat : String) (h : strContains a pat = true) :
    strContains (a ++ b) pat = true := by
  simp only [strContains, decide_eq_true_eq] at h ⊢
  rw [String.data_append]
  exact h.trans ⟨[], b.data, by simp⟩

/-- Strings of different lengths are not `==`. -/
theorem beq_false_of_length_ne {s t : String} (h : s.length ≠ t.length) : (s == t) = false := by
  rw [beq_eq_false_iff_ne]
  intro he
  exact h (by rw [he])

/-- A URL longer than the identity endpoint's is not the identity
endpoint. -/
theorem url_ne_me_of_length {u : String}
    (h : (TWITTER_API_BASE ++ "/users/me").length < u.length) :
    (u == TWITTER_API_BASE ++ "/users/me") = false :=
  beq_false_of_length_ne (by omega)

/-- None of the six engagement requests targets the identity endpoint. -/
theorem isMeReq_mkReqOf (tok : String) (c : EngageCall) (meId : String) :
    isMeReq (mkReqOf tok c meId) = false := by
  have h7 : ("/users/" : String).length = 7 := rfl
  have h9 : ("/users/me" : String).length = 9 := rfl
  have hl1 : ("/likes" : String).length = 6 := rfl
  have hl2 : ("/likes/" : String).length = 7 := rfl
  have hr1 : ("/retweets" : String).length = 9 := rfl
  have hr2 : ("/retweets/" : String).length = 10 := rfl
  have hf1 : ("/following" : String).length = 10 := rfl
  have hf2 : ("/following/" : String).length = 11 := rfl
  cases c <;>
    · simp only [mkReqOf, isMeReq, likeRequest, unlikeRequest, retweetRequest,
        undoRetweetRequest, followRequest, unfollowRequest]
      apply url_ne_me_of_length
      simp only [String.length_append]
      omega

/-- Outcome shape of the Twitter response handler: an error mapping, the 204
success marker, or the parsed body of a 200/201 response. -/
theorem twitterHandleResponse_shape (resp : HttpResponse) (j : JVal)
    (h : twitterHandleResponse resp = .ok j) :
    (∃ m, j = errObj m) ∨ (j = .obj [("success", .bool true)] ∧ resp.status = 204) ∨
    ((resp.status = 200 ∨ resp.status = 201) ∧ resp.body = some j) := by
  unfold twitterHandleResponse at h
  split_ifs at h with h1 h2 h3 h4 h5
  · exact Or.inl ⟨_, (Except.ok.inj h).symm⟩
  · exact Or.inl ⟨_, (Except.ok.inj h).symm⟩
  · exact Or.inl ⟨_, (Except.ok.inj h).symm⟩
  · exact Or.inl ⟨_, (Except.ok.inj h).symm⟩
  · refine Or.inr (Or.inl ⟨(Except.ok.inj h).symm, ?_⟩)
    simpa using h5
  · refine Or.inr (Or.inr ⟨?_, ?_⟩)
    · simp only [Bool.and_eq_true, Bool.not_eq_true', beq_eq_false_iff_ne] at h4
      have h5' : resp.status ≠ 204 := by simpa using h5
      by_cases h200 : resp.status = 200
      · exact Or.inl h200
      · by_cases h201 : resp.status = 201
        · exact Or.inr h201
        · exact absurd ⟨⟨h200, h201⟩, h5'⟩ h4
    · unfold respJson at h
      cases hb : resp.body with
      | none => rw [hb] at h; exact Except.noConfusion h
      | some b => rw [hb] at h; exact congrArg some (Except.ok.inj h)

/-- Outcome shape of the Google Docs response handler: an error mapping, or
the parsed body of a response with status below 400. -/
theorem googleHandleResponse_shape (resp : HttpResponse) (j : JVal)
    (h : googleHandleResponse resp = .ok j) :
    (∃ m, j = errObj m) ∨ (resp.status < 400 ∧ resp.body = some j) := by
  unfold googleHandleResponse at h
  split_ifs at h with h1 h2 h3 h4 h5
  · exact Or.inl ⟨_, (Except.ok.inj h).symm⟩
  · exact Or.inl ⟨_, (Except.ok.inj h).symm⟩
  · exact Or.inl ⟨_, (Except.ok.inj h).symm⟩
  · exact Or.inl ⟨_, (Except.ok.inj h).symm⟩
  · exact Or.inl ⟨_, (Except.ok.inj h).symm⟩
  · refine Or.inr ⟨by omega, ?_⟩
    unfold respJson at h
    cases hb : resp.body with
    | none => rw [hb] at h; exact Except.noConfusion h
    | some b => rw [hb] at h; exact congrArg some (Except.ok.inj h)

/-! ## Claim C7 -/

/-- **C7** (confirmed).  `search_tweets` sends upstream
`max(10, min(max_results, 100))`, hence clamps `max_results` from below to the
floor 10 (`max_results = 5` is sent as 10); `get_followers` sends
`min(max_results, 1000)`, hence clamps from above to the ceiling 1000
(`max_results = 5000` is sent as 1000).  Each operation issues exactly one
request. -/
theorem claim_C7_clamps :
    (∀ (net : Net) (tok query tweetFields : String) (maxResults : Int),
      sentMaxResults (searchTweetsOp net tok query maxResults tweetFields).2 =
        some (.int (max 10 (min maxResults 100)))) ∧
    (∀ (net : Net) (tok query tweetFields : String),
      sentMaxResults (searchTweetsOp net tok query 5 tweetFields).2 = some (.int 10)) ∧
    (∀ (net : Net) (tok userId : String) (paginationToken : Option String) (maxResults : Int),
      sentMaxResults (getFollowersOp net tok userId maxResults paginationToken).2 =
        some (.int (min maxResults 1000))) ∧
    (∀ (net : Net) (tok userId : String) (paginationToken : Option String),
      sentMaxResults (getFollowersOp net tok userId 5000 paginationToken).2 =
        some (.int 1000)) := by
  refine ⟨fun net tok query tweetFields maxResults => rfl,
          fun net tok query tweetFields => rfl,
          fun net tok userId paginationToken maxResults => ?_,
          fun net tok userId paginationToken => ?_⟩ <;>
    cases paginationToken <;> rfl

/-! ## Claim C10 -/

/-- **C10** (confirmed).  `get_user_tweets` and `get_mentions` send upstream
`max(5, min(max_results, 100))`, which always lies in `[5, 100]` — a floor of
5, different from `search_tweets`'s floor of 10 (at `max_results = 5` the
timeline endpoints send 5 while search sends 10) — whereas `get_followers` and
`get_following` send `min(max_results, 1000)`: only the ceiling 1000 and no
floor (at `max_results = 1` they send 1, below the timeline floor). -/
theorem claim_C10_timeline_clamps :
    (∀ (net : Net) (tok userId tweetFields : String) (p : Option String) (maxResults : Int),
      sentMaxResults (getUserTweetsOp net tok userId maxResults p tweetFields).2 =
        some (.int (max 5 (min maxResults 100)))) ∧
    (∀ (net : Net) (tok userId tweetFields : String) (p : Option String) (maxResults : Int),
      sentMaxResults (getMentionsOp net tok userId maxResults p tweetFields).2 =
        some (.int (max 5 (min maxResults 100)))) ∧
    (∀ maxResults : Int, 5 ≤ max 5 (min maxResults 100) ∧ max 5 (min maxResults 100) ≤ 100) ∧
    (∀ (net : Net) (tok userId tweetFields : String) (p : Option String),
      sentMaxResults (getUserTweetsOp net tok userId 5 p tweetFields).2 = some (.int 5)) ∧
    (∀ (net : Net) (tok query tweetFields : String),
      sentMaxResults (searchTweetsOp net tok query 5 tweetFields).2 = some (.int 10)) ∧
    (∀ (net : Net) (tok userId : String) (p : Option String) (maxResults : Int),
      sentMaxResults (getFollowingOp net tok userId maxResults p).2 =
        some (.int (min maxResults 1000))) ∧
    (∀ (net : Net) (tok userId : String) (p : Option String),
      sentMaxResults (getFollowingOp net tok userId 1 p).2 = some (.int 1)) := by
  refine ⟨fun net tok userId tweetFields p maxResults => ?_,
          fun net tok userId tweetFields p maxResults => ?_,
          fun maxResults => ⟨le_max_left _ _, max_le (by norm_num) (min_le_right _ _)⟩,
          fun net tok userId tweetFields p => ?_,
          fun net tok query tweetFields => rfl,
          fun net tok userId p maxResults => ?_,
          fun net tok userId p => ?_⟩ <;>
    cases p <;> rfl

/-! ## Claim C8 -/

/-- **C8** (confirmed).  Both adapters map a 401 response to an error result
whose message contains "expired" (hence "expired" or "invalid"), and a 429
response to an error result whose message mentions rate limiting (contains the
substring "ate limit", covering "Rate limited" and "rate limit"). -/
theorem claim_C8_status_messages :
    (∀ r : HttpResponse, r.status = 401 →
      twitterHandleResponse r = .ok (errObj "Invalid or expired Twitter token") ∧
      (strContains "Invalid or expired Twitter token" "expired" = true ∨
       strContains "Invalid or expired Twitter token" "invalid" = true)) ∧
    (∀ r : HttpResponse, r.status = 401 →
      googleHandleResponse r = .ok (errObj "Invalid or expired Google access token") ∧
      (strContains "Invalid or expired Google access token" "expired" = true ∨
       strContains "Invalid or expired Google access token" "invalid" = true)) ∧
    (∀ r : HttpResponse, r.status = 429 →
      ∃ m, twitterHandleResponse r = .ok (errObj m) ∧ strContains m "ate limit" = true) ∧
    (∀ r : HttpResponse, r.status = 429 →
      googleHandleResponse r = .ok (errObj "Google API rate limit exceeded. Try again later.") ∧
      strContains "Google API rate limit exceeded. Try again later." "ate limit" = true) := by
  refine ⟨fun r h => ⟨?_, Or.inl (by decide)⟩, fun r h => ⟨?_, Or.inl (by decide)⟩,
          fun r h => ?_, fun r h => ⟨?_, by decide⟩⟩
  · simp [twitterHandleResponse, h]
  · simp [googleHandleResponse, h]
  · refine ⟨"Rate limited. Resets at timestamp: " ++
      headerGetD r.headers "x-rate-limit-reset" "unknown", ?_, ?_⟩
    · simp [twitterHandleResponse, h]
    · exact strContains_append_left _ _ _ (by decide)
  · simp [googleHandleResponse, h]

/-- Witness for C8: concrete 401 and 429 responses. -/
theorem claim_C8_status_messages_witness :
    twitterHandleResponse { status := 401, body := none, text := "", headers := [] } =
      .ok (errObj "Invalid or expired Twitter token") ∧
    (∃ m, twitterHandleResponse
        { status := 429, body := none, text := "", headers := [("x-rate-limit-reset", "17")] } =
      .ok (errObj m) ∧ strContains m "ate limit" = true) ∧
    googleHandleResponse { status := 429, body := none, text := "", headers := [] } =
      .ok (errObj "Google API rate limit exceeded. Try again later.") :=
  ⟨(claim_C8_status_messages.1 _ rfl).1,
   claim_C8_status_messages.2.2.1 _ rfl,
   (claim_C8_status_messages.2.2.2 _ rfl).1⟩

/-! ## Claim C3 -/

/-- **C3** (corrected): counterexample.  The claim says every adapter maps a
404 response to an error result whose message says the resource was not found.
The Twitter adapter has no 404 branch: a 404 falls into the generic `>= 400`
branch, producing "Twitter API error (404): x", which contains neither
"not found" nor "Not Found" (no occurrence of "ot found"). -/
theorem claim_C3_counterexample :
    twitterHandleResponse { status := 404, body := none, text := "x", headers := [] } =
      .ok (errObj "Twitter API error (404): x") ∧
    strContains "Twitter API error (404): x" "ot found" = false := by
  exact ⟨rfl, by decide⟩

/-- **C3** (corrected): amended claim.  The Google Docs adapter maps 404 to
"Document not found"; the Twitter adapter has no dedicated 404 branch and
routes 404 through its generic branch, carrying the upstream status and
message body.  The rest of the table is common to both adapters: 401 → the
fixed invalid/expired-credential message, 403 → an insufficient-permission
message, 429 → a rate-limit message, and any other status ≥ 400 → a generic
API error carrying the upstream status and extracted message body. -/
theorem claim_C3_amended :
    (∀ r : HttpResponse, r.status = 404 →
      googleHandleResponse r = .ok (errObj "Document not found") ∧
      strContains "Document not found" "ot found" = true) ∧
    (∀ r : HttpResponse, r.status = 404 →
      twitterHandleResponse r =
        .ok (errObj ("Twitter API error (404): " ++ twitterErrMsg r))) ∧
    (∀ r : HttpResponse, r.status = 401 →
      twitterHandleResponse r = .ok (errObj "Invalid or expired Twitter token") ∧
      googleHandleResponse r = .ok (errObj "Invalid or expired Google access token")) ∧
    (∀ r : HttpResponse, r.status = 403 →
      twitterHandleResponse r =
        .ok (errObj "Forbidden - check token permissions (need read+write scope)") ∧
      googleHandleResponse r =
        .ok (errObj ("Insufficient permissions. Check your Google API scopes. " ++
          "Required scopes: https://www.googleapis.com/auth/documents"))) ∧
    (∀ r : HttpResponse, r.status = 429 →
      twitterHandleResponse r = .ok (errObj ("Rate limited. Resets at timestamp: " ++
        headerGetD r.headers "x-rate-limit-reset" "unknown")) ∧
      googleHandleResponse r = .ok (errObj "Google API rate limit exceeded. Try again later.")) ∧
    (∀ r : HttpResponse, 400 ≤ r.status →
      r.status ≠ 401 → r.status ≠ 403 → r.status ≠ 404 → r.status ≠ 429 →
      twitterHandleResponse r =
        .ok (errObj ("Twitter API error (" ++ toString r.status ++ "): " ++ twitterErrMsg r)) ∧
      googleHandleResponse r =
        .ok (errObj ("Google Docs API error (HTTP " ++ toString r.status ++ "): " ++
          googleDetail r))) := by
  refine ⟨fun r h => ⟨by simp [googleHandleResponse, h], by decide⟩,
          fun r h => by simp [twitterHandleResponse, h]; rfl,
          fun r h => ⟨by simp [twitterHandleResponse, h], by simp [googleHandleResponse, h]⟩,
          fun r h => ⟨by simp [twitterHandleResponse, h], by simp [googleHandleResponse, h]⟩,
          fun r h => ⟨by simp [twitterHandleResponse, h], by simp [googleHandleResponse, h]⟩,
          fun r h h1 h3 h4 h9 => ⟨?_, ?_⟩⟩
  · have h200 : r.status ≠ 200 := by omega
    have h201 : r.status ≠ 201 := by omega
    have h204 : r.status ≠ 204 := by omega
    simp [twitterHandleResponse, h1, h3, h4, h9, h200, h201, h204]
  · simp [googleHandleResponse, h1, h3, h4, h9, h]

/-- Witness for the amended C3: concrete 404 responses through both
adapters. -/
theorem claim_C3_amended_witness :
    googleHandleResponse { status := 404, body := none, text := "", headers := [] } =
      .ok (errObj "Document not found") ∧
    twitterHandleResponse { status := 404, body := none, text := "gone", headers := [] } =
      .ok (errObj ("Twitter API error (404): " ++
        twitterErrMsg { status := 404, body := none, text := "gone", headers := [] })) :=
  ⟨(claim_C3_amended.1 _ rfl).1, claim_C3_amended.2.1 _ rfl⟩

/-! ## Claim C4 -/

/-- **C4** (corrected): counterexample.  The claim says every adapter maps a
204 (2xx with empty body) to a generic success marker without raising.  The
Google Docs adapter has no 204 branch: a 204 with an empty body reaches
`response.json()`, which raises a `json.JSONDecodeError`. -/
theorem claim_C4_counterexample :
    googleHandleResponse { status := 204, body := none, text := "", headers := [] } =
      .error .jsonDecodeError := rfl

/-- **C4** (corrected): amended claim.  The Twitter adapter maps any 204 to
the generic success marker `{"success": true}`; the Google Docs adapter has no
204 branch and instead attempts `response.json()` — returning the body when it
parses and raising a JSON-decode error when it is empty or not valid JSON. -/
theorem claim_C4_amended :
    (∀ r : HttpResponse, r.status = 204 →
      twitterHandleResponse r = .ok (.obj [("success", .bool true)])) ∧
    (∀ r : HttpResponse, r.status = 204 → googleHandleResponse r = respJson r) := by
  refine ⟨fun r h => by simp [twitterHandleResponse, h], fun r h => by
    simp [googleHandleResponse, h]⟩

/-- Witness for the amended C4: a concrete 204 response through both
adapters. -/
theorem claim_C4_amended_witness :
    twitterHandleResponse { status := 204, body := none, text := "", headers := [] } =
      .ok (.obj [("success", .bool true)]) ∧
    googleHandleResponse { status := 204, body := some (.obj []), text := "", headers := [] } =
      respJson { status := 204, body := some (.obj []), text := "", headers := [] } :=
  ⟨claim_C4_amended.1 _ rfl, claim_C4_amended.2 _ rfl⟩

/-! ## Claim C9 -/

/-- **C9** (confirmed).  With the Twitter bearer token configured as the empty
string and no credential store, every registered Twitter tool returns exactly
the mapping with the "Twitter credentials not configured" error and the help
text, and issues no HTTP request. -/
theorem claim_C9_empty_token :
    twitterNoCreds = .obj [("error", .str "Twitter credentials not configured"),
      ("help", .str ("Set TWITTER_BEARER_TOKEN environment variable " ++
        "or connect Twitter via hive.adenhq.com"))] ∧
    (∀ (net : Net) (text replyTo : String),
      twitter_post_tweet none envEmptyTwitterToken net text replyTo = (.ok twitterNoCreds, [])) ∧
    (∀ (net : Net) (tweetId : String),
      twitter_delete_tweet none envEmptyTwitterToken net tweetId = (.ok twitterNoCreds, [])) ∧
    (∀ (net : Net) (tweetId tweetFields : String),
      twitter_get_tweet none envEmptyTwitterToken net tweetId tweetFields =
        (.ok twitterNoCreds, [])) ∧
    (∀ (net : Net) (query : String) (maxResults : Int) (tweetFields : String),
      twitter_search_tweets none envEmptyTwitterToken net query maxResults tweetFields =
        (.ok twitterNoCreds, [])) ∧
    (∀ (net : Net) (tweetId : String),
      twitter_like_tweet none envEmptyTwitterToken net tweetId = (.ok twitterNoCreds, [])) ∧
    (∀ (net : Net) (tweetId : String),
      twitter_unlike_tweet none envEmptyTwitterToken net tweetId = (.ok twitterNoCreds, [])) ∧
    (∀ (net : Net) (tweetId : String),
      twitter_retweet none envEmptyTwitterToken net tweetId = (.ok twitterNoCreds, [])) ∧
    (∀ (net : Net) (tweetId : String),
      twitter_undo_retweet none envEmptyTwitterToken net tweetId = (.ok twitterNoCreds, [])) ∧
    (∀ (net : Net) (username : String),
      twitter_get_user none envEmptyTwitterToken net username = (.ok twitterNoCreds, [])) ∧
    (∀ (net : Net) (targetUserId : String),
      twitter_follow_user none envEmptyTwitterToken net targetUserId =
        (.ok twitterNoCreds, [])) ∧
    (∀ (net : Net) (targetUserId : String),
      twitter_unfollow_user none envEmptyTwitterToken net targetUserId =
        (.ok twitterNoCreds, [])) ∧
    (∀ (net : Net) (userId : String) (maxResults : Int) (paginationToken : String),
      twitter_get_followers none envEmptyTwitterToken net userId maxResults paginationToken =
        (.ok twitterNoCreds, [])) ∧
    (∀ (net : Net) (userId : String) (maxResults : Int) (paginationToken : String),
      twitter_get_following none envEmptyTwitterToken net userId maxResults paginationToken =
        (.ok twitterNoCreds, [])) ∧
    (∀ (net : Net) (userId : String) (maxResults : Int) (paginationToken tweetFields : String),
      twitter_get_user_tweets none envEmptyTwitterToken net userId maxResults
        paginationToken tweetFields = (.ok twitterNoCreds, [])) ∧
    (∀ (net : Net) (userId : String) (maxResults : Int) (paginationToken tweetFields : String),
      twitter_get_mentions none envEmptyTwitterToken net userId maxResults
        paginationToken tweetFields = (.ok twitterNoCreds, [])) := by
  exact ⟨rfl, fun _ _ _ => rfl, fun _ _ => rfl, fun _ _ _ => rfl, fun _ _ _ _ => rfl,
    fun _ _ => rfl, fun _ _ => rfl, fun _ _ => rfl, fun _ _ => rfl, fun _ _ => rfl,
    fun _ _ => rfl, fun _ _ => rfl, fun _ _ _ _ => rfl, fun _ _ _ _ => rfl,
    fun _ _ _ _ _ => rfl, fun _ _ _ _ _ => rfl⟩

/-! ## Claim C1 -/

/-- **C1** (corrected): counterexample.  For `google_docs` with no credential
store, the declared environment variable (`GOOGLE_DOCS_ACCESS_TOKEN`) unset,
and `GOOGLE_SERVICE_ACCOUNT_JSON` holding JSON with an `access_token`, the
code's `_get_token` returns that token, whereas the chain stated by the claim
(store value, else declared environment variable, else absent) yields
absent. -/
theorem claim_C1_counterexample :
    googleGetToken saParse none envServiceAccount = .ok (some (.str "tok")) ∧
    getenv envServiceAccount "GOOGLE_DOCS_ACCESS_TOKEN" = none ∧
    resolveClaimC1 none (getenv envServiceAccount "GOOGLE_DOCS_ACCESS_TOKEN") = none := by
  exact ⟨rfl, rfl, rfl⟩

/-- **C1** (corrected): amended claim.  For both integrations, when a
credential-store adapter is supplied its answer is used exclusively — a string
is returned as the token, an absent value resolves to absent with no
environment fallback — so the store takes precedence over any environment
variable.  Without an adapter, Twitter returns exactly the declared
environment variable, while Google Docs returns the declared variable when set
and nonempty and otherwise falls back to the `access_token` field of the
JSON-parsed `GOOGLE_SERVICE_ACCOUNT_JSON` (absent when that variable is unset
or empty, or its contents are malformed JSON). -/
theorem claim_C1_amended :
    (∀ (st : Store) (env : Env) (v : String), st "twitter" = .str v →
      twitterGetToken (some st) env = .ok (some v)) ∧
    (∀ (st : Store) (env : Env), st "twitter" = .absent →
      twitterGetToken (some st) env = .ok none) ∧
    (∀ env : Env, twitterGetToken none env = .ok (getenv env "TWITTER_BEARER_TOKEN")) ∧
    (∀ (parse : String → Except Unit JVal) (st : Store) (env : Env) (v : String),
      st "google_docs" = .str v →
      googleGetToken parse (some st) env = .ok (some (.str v))) ∧
    (∀ (parse : String → Except Unit JVal) (st : Store) (env : Env),
      st "google_docs" = .absent → googleGetToken parse (some st) env = .ok none) ∧
    (∀ (parse : String → Except Unit JVal) (env : Env) (t : String),
      getenv env "GOOGLE_DOCS_ACCESS_TOKEN" = some t → t ≠ "" →
      googleGetToken parse none env = .ok (some (.str t))) ∧
    (∀ (parse : String → Except Unit JVal) (env : Env) (sa : String)
        (kvs : List (String × JVal)),
      (getenv env "GOOGLE_DOCS_ACCESS_TOKEN" = none ∨
        getenv env "GOOGLE_DOCS_ACCESS_TOKEN" = some "") →
      getenv env "GOOGLE_SERVICE_ACCOUNT_JSON" = some sa → sa ≠ "" →
      parse sa = .ok (.obj kvs) →
      googleGetToken parse none env = .ok (jget kvs "access_token")) ∧
    (∀ (parse : String → Except Unit JVal) (env : Env) (sa : String) (u : Unit),
      (getenv env "GOOGLE_DOCS_ACCESS_TOKEN" = none ∨
        getenv env "GOOGLE_DOCS_ACCESS_TOKEN" = some "") →
      getenv env "GOOGLE_SERVICE_ACCOUNT_JSON" = some sa → sa ≠ "" →
      parse sa = .error u →
      googleGetToken parse none env = .ok none) ∧
    (∀ (parse : String → Except Unit JVal) (env : Env),
      (getenv env "GOOGLE_DOCS_ACCESS_TOKEN" = none ∨
        getenv env "GOOGLE_DOCS_ACCESS_TOKEN" = some "") →
      getenv env "GOOGLE_SERVICE_ACCOUNT_JSON" = none →
      googleGetToken parse none env = .ok none) := by
  refine ⟨fun st env v h => by simp [twitterGetToken, h],
          fun st env h => by simp [twitterGetToken, h],
          fun env => rfl,
          fun parse st env v h => by simp [googleGetToken, h],
          fun parse st env h => by simp [googleGetToken, h],
          fun parse env t h hne => by
            simp [googleGetToken, h, beq_eq_false_iff_ne.mpr hne],
          fun parse env sa kvs henv hsa hne hp => ?_,
          fun parse env sa u henv hsa hne hp => ?_,
          fun parse env henv hsa => ?_⟩ <;>
    · rcases henv with h | h <;>
        simp [googleGetToken, h, hsa, *]

/-- Witness for the amended C1: a concrete store and environments exercising
the store-precedence conjunct and the service-account fallback conjunct. -/
theorem claim_C1_amended_witness :
    twitterGetToken (some (fun _ => .str "stok")) [("TWITTER_BEARER_TOKEN", "etok")] =
      .ok (some "stok") ∧
    googleGetToken saParse none envServiceAccount =
      .ok (jget [("access_token", .str "tok")] "access_token") ∧
    googleGetToken (fun _ => .error ()) none envServiceAccount = .ok none :=
  ⟨claim_C1_amended.1 (fun _ => .str "stok") [("TWITTER_BEARER_TOKEN", "etok")] "stok" rfl,
   claim_C1_amended.2.2.2.2.2.2.1 saParse envServiceAccount "SA"
     [("access_token", .str "tok")] (Or.inl rfl) rfl (by decide) rfl,
   claim_C1_amended.2.2.2.2.2.2.2.1 (fun _ => .error ()) envServiceAccount "SA" ()
     (Or.inl rfl) rfl (by decide) rfl⟩

/-! ## Claim C5 -/

/-- **C5** (confirmed).  `insert_text` with no index first fetches the document
(`get_document`), and:
* when the fetch yields an error result, that result is returned and no
  further request is issued (the trace is exactly the one GET);
* when the fetch succeeds, the mutating `batch_update` is issued with the
  computed index, and the trace is exactly the two sequential requests;
* the computed index is the last content element's `endIndex` minus 1, and 1
  when the document body has no content (whether `content` is an empty list or
  `body`/`content` are missing). -/
theorem claim_C5_insert_text_at_end :
    (∀ (net : Net) (tok documentId text : String) (doc : JVal),
      googleSend net (getDocumentRequest tok documentId) = .ok doc →
      pyInError doc = .ok true →
      insertTextOp net tok documentId text none none =
        (.ok doc, [getDocumentRequest tok documentId])) ∧
    (∀ (net : Net) (tok documentId text : String) (doc : JVal) (i : Int),
      googleSend net (getDocumentRequest tok documentId) = .ok doc →
      pyInError doc = .ok false →
      insertEndIndex doc = .ok i →
      insertTextOp net tok documentId text none none =
        (googleSend net (batchUpdateRequest tok documentId
            [insertTextBody (insertLocation none i) text]),
         [getDocumentRequest tok documentId,
          batchUpdateRequest tok documentId [insertTextBody (insertLocation none i) text]])) ∧
    (∀ (kvs bkvs : List (String × JVal)) (cs : List JVal) (lkvs : List (String × JVal)) (n : Int),
      jget kvs "body" = some (.obj bkvs) →
      jget bkvs "content" = some (.arr cs) →
      cs.getLast? = some (.obj lkvs) →
      jget lkvs "endIndex" = some (.int n) →
      insertEndIndex (.obj kvs) = .ok (n - 1)) ∧
    (∀ (kvs bkvs : List (String × JVal)),
      jget kvs "body" = some (.obj bkvs) →
      jget bkvs "content" = some (.arr []) →
      insertEndIndex (.obj kvs) = .ok 1) ∧
    (∀ kvs : List (String × JVal),
      jget kvs "body" = none →
      insertEndIndex (.obj kvs) = .ok 1) := by
  refine ⟨fun net tok documentId text doc hdoc herr => ?_,
          fun net tok documentId text doc i hdoc herr hidx => ?_,
          fun kvs bkvs cs lkvs n hb hc hl he => ?_,
          fun kvs bkvs hb hc => ?_,
          fun kvs hb => ?_⟩
  · simp [insertTextOp, getDocumentOp, hdoc, herr]
  · simp [insertTextOp, getDocumentOp, hdoc, herr, hidx, batchUpdateOp]
  · have hne : cs ≠ [] := by
      intro h
      rw [h] at hl
      exact Option.noConfusion hl
    simp [insertEndIndex, jgetAttr, hb, hc, jTruthy, hne, pyIndexLast, hl, he, pySubOne,
      bind, Except.bind, pure, Except.pure]
  · simp [insertEndIndex, jgetAttr, hb, hc, jTruthy, bind, Except.bind, pure, Except.pure]
  · have h2 : jget ([] : List (String × JVal)) "content" = none := rfl
    simp [insertEndIndex, jgetAttr, hb, h2, jTruthy, bind, Except.bind, pure, Except.pure]

/-- Witness for C5: on `netDocSeven`, appending computes index `7 - 1` and
issues exactly the fetch followed by the batch update. -/
theorem claim_C5_insert_text_at_end_witness :
    insertTextOp netDocSeven "tk" "d" "hello" none none =
      (googleSend netDocSeven (batchUpdateRequest "tk" "d"
          [insertTextBody (insertLocation none (7 - 1)) "hello"]),
       [getDocumentRequest "tk" "d",
        batchUpdateRequest "tk" "d" [insertTextBody (insertLocation none (7 - 1)) "hello"]]) ∧
    insertEndIndex docSeven = .ok (7 - 1) :=
  ⟨claim_C5_insert_text_at_end.2.1 netDocSeven "tk" "d" "hello" docSeven (7 - 1) rfl rfl
     (claim_C5_insert_text_at_end.2.2.1 _ _ [.obj [("endIndex", .int 7)]] _ 7 rfl rfl rfl rfl),
   claim_C5_insert_text_at_end.2.2.1 _ _ [.obj [("endIndex", .int 7)]] _ 7 rfl rfl rfl rfl⟩

/-! ## Engagement-cache lemmas (for claim C6) -/

/-- Each engagement operation is `engageWith` on its request builder. -/
theorem runEngage_eq_engageWith (net : Net) (tok : String) (cache : Option JVal)
    (c : EngageCall) :
    runEngage net tok cache c = engageWith net tok cache (mkReqOf tok c) := by
  cases c <;> rfl

/-- The identity request targets the identity endpoint. -/
theorem isMeReq_meRequest (tok : String) : isMeReq (meRequest tok) = true := by
  simp [isMeReq, meRequest]

/-- Case analysis of `_get_me_id` on an empty cache. -/
theorem getMeId_none_spec (net : Net) (tok : String) :
    (∃ e, twitterSend net (meRequest tok) = .error e ∧
      getMeId net tok none = (.error e, none, [meRequest tok])) ∨
    (∃ result e, twitterSend net (meRequest tok) = .ok result ∧ pyInError result = .error e ∧
      getMeId net tok none = (.error e, none, [meRequest tok])) ∨
    (∃ result, twitterSend net (meRequest tok) = .ok result ∧ pyInError result = .ok true ∧
      getMeId net tok none = (.ok result, none, [meRequest tok])) ∨
    (∃ result e, twitterSend net (meRequest tok) = .ok result ∧ pyInError result = .ok false ∧
      (do let d ← jindex result "data"; jindex d "id" : PyM JVal) = .error e ∧
      getMeId net tok none = (.error e, none, [meRequest tok])) ∨
    (∃ result v, twitterSend net (meRequest tok) = .ok result ∧ pyInError result = .ok false ∧
      (do let d ← jindex result "data"; jindex d "id" : PyM JVal) = .ok v ∧
      getMeId net tok none = (.ok v, some v, [meRequest tok])) := by
  rcases h1 : twitterSend net (meRequest tok) with e | result
  · exact Or.inl ⟨e, rfl, by simp [getMeId, h1]⟩
  · rcases h2 : pyInError result with e | b
    · exact Or.inr (Or.inl ⟨result, e, rfl, h2, by simp [getMeId, h1, h2]⟩)
    · cases b with
      | true => exact Or.inr (Or.inr (Or.inl ⟨result, rfl, h2, by simp [getMeId, h1, h2]⟩))
      | false =>
        rcases h3 : (do let d ← jindex result "data"; jindex d "id" : PyM JVal) with e | v
        · exact Or.inr (Or.inr (Or.inr (Or.inl
            ⟨result, e, rfl, h2, h3, by simp [getMeId, h1, h2, h3]⟩)))
        · exact Or.inr (Or.inr (Or.inr (Or.inr
            ⟨result, v, rfl, h2, h3, by simp [getMeId, h1, h2, h3]⟩)))

/-- With a populated cache, an engagement operation keeps the cache and issues
no identity request. -/
theorem engageWith_cached (net : Net) (tok : String) (v : JVal)
    (mkReq : String → Request) (hmk : ∀ meId, isMeReq (mkReq meId) = false) :
    (engageWith net tok (some v) mkReq).2.1 = some v ∧
    countMe (engageWith net tok (some v) mkReq).2.2 = 0 := by
  cases v <;> simp [engageWith, getMeId, countMe, List.filter, hmk]

/-- From an empty cache, an engagement operation issues at most one identity
request. -/
theorem engageWith_fromNone_count (net : Net) (tok : String)
    (mkReq : String → Request) (hmk : ∀ meId, isMeReq (mkReq meId) = false) :
    countMe (engageWith net tok none mkReq).2.2 ≤ 1 := by
  rcases getMeId_none_spec net tok with ⟨e, h1, hg⟩ | ⟨result, e, h1, h2, hg⟩ |
    ⟨result, h1, h2, hg⟩ | ⟨result, e, h1, h2, h3, hg⟩ | ⟨result, v, h1, h2, h3, hg⟩
  · simp [engageWith, hg, countMe, List.filter, isMeReq_meRequest, hmk]
  · simp [engageWith, hg, countMe, List.filter, isMeReq_meRequest, hmk]
  · cases result <;> simp [engageWith, hg, countMe, List.filter, isMeReq_meRequest, hmk]
  · simp [engageWith, hg, countMe, List.filter, isMeReq_meRequest, hmk]
  · cases v <;> simp [engageWith, hg, countMe, List.filter, isMeReq_meRequest, hmk]

/-- Under the identity-endpoint contract, a successful engagement operation
from an empty cache leaves the cache populated. -/
theorem engageWith_success_cache (net : Net) (tok : String) (mkReq : String → Request)
    (hm : meNetOk net tok)
    (hs : successful (engageWith net tok none mkReq).1 = true) :
    ∃ v, (engageWith net tok none mkReq).2.1 = some v := by
  rcases getMeId_none_spec net tok with ⟨e, h1, hg⟩ | ⟨result, e, h1, h2, hg⟩ |
    ⟨result, h1, h2, hg⟩ | ⟨result, e, h1, h2, h3, hg⟩ | ⟨result, v, h1, h2, h3, hg⟩
  · simp [engageWith, hg, successful] at hs
  · simp [engageWith, hg, successful] at hs
  · -- the identity response carried an error mapping (or was not an object)
    have hobj : ∃ kvs, result = .obj kvs := by
      rcases hnet : net (meRequest tok) with resp | _ | m
      · have hh : twitterHandleResponse resp = .ok result := by
          rw [twitterSend, hnet] at h1; exact h1
        rcases twitterHandleResponse_shape resp result hh with ⟨m, hm'⟩ | ⟨hm', _⟩ | ⟨hst, hb⟩
        · exact ⟨_, hm'⟩
        · exact ⟨_, hm'⟩
        · exact hm resp result hnet hst hb
      · rw [twitterSend, hnet] at h1; exact Except.noConfusion h1
      · rw [twitterSend, hnet] at h1; exact Except.noConfusion h1
    rcases hobj with ⟨kvs, rfl⟩
    simp [engageWith, hg, successful, h2] at hs
  · simp [engageWith, hg, successful] at hs
  · refine ⟨v, ?_⟩
    cases v <;> simp [engageWith, hg]

/-- An error result from identity resolution short-circuits the operation:
the error mapping is returned and the only request issued is the identity
GET. -/
theorem engageWith_me_error (net : Net) (tok : String) (mkReq : String → Request)
    (kvs : List (String × JVal))
    (h : twitterSend net (meRequest tok) = .ok (.obj kvs))
    (he : (jget kvs "error").isSome = true) :
    engageWith net tok none mkReq = (.ok (.obj kvs), none, [meRequest tok]) := by
  have hp : pyInError (.obj kvs) = .ok true := by simp [pyInError, he]
  simp [engageWith, getMeId, h, hp]

/-- Over a sequence of engagement calls on one client, if every call is
successful then at most one identity request is issued starting from an empty
cache, and none from a populated cache. -/
theorem runEngageSeq_countMe (net : Net) (tok : String) (hm : meNetOk net tok) :
    ∀ (calls : List EngageCall) (cache : Option JVal),
      allSuccessful (runEngageSeq net tok cache calls).1 = true →
      countMe (runEngageSeq net tok cache calls).2.2 ≤
        (match cache with | some _ => 0 | none => 1) := by
  intro calls
  induction calls with
  | nil => intro cache _; cases cache <;> simp [runEngageSeq, countMe, List.filter]
  | cons c cs ih =>
    intro cache h
    rcases hre : runEngage net tok cache c with ⟨r, cache1, tr⟩
    rcases hrs : runEngageSeq net tok cache1 cs with ⟨rs, cache2, trs⟩
    have hseq : runEngageSeq net tok cache (c :: cs) = (r :: rs, cache2, tr ++ trs) := by
      simp [runEngageSeq, hre, hrs]
    rw [hseq] at h ⊢
    simp only [allSuccessful, List.all_cons, Bool.and_eq_true] at h
    have hcount : countMe (tr ++ trs) = countMe tr + countMe trs := by
      simp [countMe, List.filter_append]
    have hEW := runEngage_eq_engageWith net tok cache c
    cases cache with
    | some v =>
      have hc := engageWith_cached net tok v (mkReqOf tok c) (isMeReq_mkReqOf tok c)
      rw [← hEW, hre] at hc
      have hc1 : cache1 = some v := by simpa using hc.1
      have hc2 : countMe tr = 0 := by simpa using hc.2
      have hih := ih cache1 (by rw [hrs]; exact h.2)
      rw [hrs, hc1] at hih
      simp only at hih ⊢
      omega
    | none =>
      have hc1 : countMe tr ≤ 1 := by
        have h' := engageWith_fromNone_count net tok (mkReqOf tok c) (isMeReq_mkReqOf tok c)
        rw [← hEW, hre] at h'
        simpa using h'
      have hcache : ∃ w, cache1 = some w := by
        have h' := engageWith_success_cache net tok (mkReqOf tok c) hm
          (by rw [← hEW, hre]; exact h.1)
        rw [← hEW, hre] at h'
        simpa using h'
      rcases hcache with ⟨w, rfl⟩
      have hih := ih (some w) (by rw [hrs]; exact h.2)
      rw [hrs] at hih
      simp only at hih ⊢
      omega

/-! ## Claim C6 -/

/-- **C6** (confirmed).  The authenticated user's id is resolved lazily and
cached once per client instance: with a populated cache an engagement
operation issues no identity request and keeps the cache; across any sequence
of successful engagement calls on one instance at most one `/users/me` request
is issued (assuming the identity endpoint returns JSON objects, as the API
documents); and when identity resolution returns an error mapping, the
operation returns exactly that mapping and issues no mutating request — its
only request is the identity GET (which carries no body). -/
theorem claim_C6_identity_cache :
    (∀ (net : Net) (tok : String) (v : JVal) (c : EngageCall),
      (runEngage net tok (some v) c).2.1 = some v ∧
      countMe (runEngage net tok (some v) c).2.2 = 0) ∧
    (∀ (net : Net) (tok : String), meNetOk net tok →
      ∀ calls : List EngageCall,
        allSuccessful (runEngageSeq net tok none calls).1 = true →
        countMe (runEngageSeq net tok none calls).2.2 ≤ 1) ∧
    (∀ (net : Net) (tok : String) (c : EngageCall) (kvs : List (String × JVal)),
      twitterSend net (meRequest tok) = .ok (.obj kvs) →
      (jget kvs "error").isSome = true →
      runEngage net tok none c = (.ok (.obj kvs), none, [meRequest tok]) ∧
      (meRequest tok).method = "GET" ∧ (meRequest tok).jsonBody = none) := by
  refine ⟨fun net tok v c => ?_, fun net tok hm calls h => ?_, fun net tok c kvs h he => ?_⟩
  · rw [runEngage_eq_engageWith]
    exact engageWith_cached net tok v (mkReqOf tok c) (isMeReq_mkReqOf tok c)
  · simpa using runEngageSeq_countMe net tok hm calls none h
  · exact ⟨by rw [runEngage_eq_engageWith]; exact engageWith_me_error net tok _ kvs h he,
      rfl, rfl⟩

/-- Witness for C6: a well-behaved network where two successive likes on one
client issue at most one identity request, and a 401-everywhere network where
the like returns the identity error untouched with only the identity GET
issued. -/
theorem claim_C6_identity_cache_witness :
    countMe (runEngageSeq netMeWell "tk" none [.like "9", .unlike "9"]).2.2 ≤ 1 ∧
    runEngage netAll401 "tk" none (.like "9") =
      (.ok (.obj [("error", .str "Invalid or expired Twitter token")]), none,
       [meRequest "tk"]) := by
  constructor
  · refine claim_C6_identity_cache.2.1 netMeWell "tk" ?_ [.like "9", .unlike "9"] ?_
    · intro r j hr hst hb
      have hme : netMeWell (meRequest "tk") =
          .resp { status := 200, body := some (.obj [("data", .obj [("id", .str "42")])]),
                  text := "", headers := [] } := rfl
      rw [hme] at hr
      cases hr
      exact ⟨[("data", .obj [("id", .str "42")])], (Option.some.inj hb).symm⟩
    · rfl
  · exact (claim_C6_identity_cache.2.2 netAll401 "tk" (.like "9")
      [("error", .str "Invalid or expired Twitter token")] rfl rfl).1

/-! ## Totality lemmas (for claim C2) -/

/-- Statuses outside the Twitter generic-error branch that are not 204 are 200
or 201. -/
theorem status_200_or_201 {s : Nat}
    (h4 : ¬((!(s == 200) && !(s == 201) && !(s == 204)) = true))
    (h5 : ¬((s == 204) = true)) : s = 200 ∨ s = 201 := by
  simp only [Bool.and_eq_true, Bool.not_eq_true', beq_eq_false_iff_ne] at h4
  have h5' : s ≠ 204 := by simpa using h5
  by_cases h200 : s = 200
  · exact Or.inl h200
  · by_cases h201 : s = 201
    · exact Or.inr h201
    · exact absurd ⟨⟨h200, h201⟩, h5'⟩ h4

/-- Lookup in the empty object. -/
theorem jget_nil (k : String) : jget ([] : List (String × JVal)) k = none := rfl

/-- A shapely value is an object. -/
theorem bodyShapely_obj {j : JVal} (h : bodyShapely j = true) : ∃ kvs, j = .obj kvs := by
  cases j
  case obj kvs => exact ⟨kvs, rfl⟩
  all_goals simp [bodyShapely] at h

/-- A well-shaped Google body is an object. -/
theorem gBodyOk_obj {j : JVal} (h : gBodyOk j = true) : ∃ kvs, j = .obj kvs := by
  cases j
  case obj kvs => exact ⟨kvs, rfl⟩
  all_goals simp [gBodyOk] at h

/-- On a well-shaped identity body, `result["data"]["id"]` evaluates to the
string id. -/
theorem meChain_ok {kvs : List (String × JVal)} (h : meBodyOk (.obj kvs) = true) :
    ∃ s, (do let d ← jindex (.obj kvs) "data"; jindex d "id" : PyM JVal) = .ok (.str s) := by
  cases hd : jget kvs "data" with
  | none => exact absurd h (by simp [meBodyOk, hd])
  | some v =>
    cases v
    case obj d =>
      cases hi : jget d "id" with
      | none => exact absurd h (by simp [meBodyOk, hd, hi])
      | some w =>
        cases w
        case str s =>
          exact ⟨s, by simp [jindex, hd, hi, bind, Except.bind]⟩
        all_goals exact absurd h (by simp [meBodyOk, hd, hi])
    all_goals exact absurd h (by simp [meBodyOk, hd])

/-- The Twitter handler raises only on a parsed (200/201) response with an
unparseable body. -/
theorem twitterHandleResponse_error_shape (resp : HttpResponse) (e : PyExc)
    (h : twitterHandleResponse resp = .error e) :
    (resp.status = 200 ∨ resp.status = 201) ∧ resp.body = none := by
  unfold twitterHandleResponse at h
  split_ifs at h with h1 h2 h3 h4 h5
  refine ⟨status_200_or_201 h4 h5, ?_⟩
  unfold respJson at h
  cases hb : resp.body with
  | none => rfl
  | some b => rw [hb] at h; exact Except.noConfusion h

/-- The Google handler raises only on a sub-400 response with an unparseable
body. -/
theorem googleHandleResponse_error_shape (resp : HttpResponse) (e : PyExc)
    (h : googleHandleResponse resp = .error e) :
    resp.status < 400 ∧ resp.body = none := by
  unfold googleHandleResponse at h
  split_ifs at h with h1 h2 h3 h4 h5
  refine ⟨by omega, ?_⟩
  unfold respJson at h
  cases hb : resp.body with
  | none => rfl
  | some b => rw [hb] at h; exact Except.noConfusion h

/-- Under the Twitter network contract, a raised send is a transport
exception. -/
theorem twitterSend_error_cases (net : Net) (hnet : twitterNetOk net) (req : Request)
    (e : PyExc) (h : twitterSend net req = .error e) :
    e = .timeout ∨ ∃ m, e = .netError m := by
  unfold twitterSend at h
  rcases hn : net req with r | _ | m <;> rw [hn] at h
  · rcases twitterHandleResponse_error_shape r e h with ⟨hst, hb⟩
    rcases (hnet req r hn).1 hst with ⟨j, hj, _⟩
    rw [hb] at hj
    exact Option.noConfusion hj
  · exact Or.inl (Except.error.inj h).symm
  · exact Or.inr ⟨m, (Except.error.inj h).symm⟩

/-- Under the Google network contract, a raised send is a transport
exception. -/
theorem googleSend_error_cases (net : Net) (hnet : googleNetOk net) (req : Request)
    (e : PyExc) (h : googleSend net req = .error e) :
    e = .timeout ∨ ∃ m, e = .netError m := by
  unfold googleSend at h
  rcases hn : net req with r | _ | m <;> rw [hn] at h
  · rcases googleHandleResponse_error_shape r e h with ⟨hst, hb⟩
    rcases hnet req r hn hst with ⟨j, hj, _⟩
    rw [hb] at hj
    exact Option.noConfusion hj
  · exact Or.inl (Except.error.inj h).symm
  · exact Or.inr ⟨m, (Except.error.inj h).symm⟩

/-- Outcomes of a Twitter send under the network contract: a transport
exception, or a shapely object (with the identity guarantees on the identity
endpoint). -/
theorem twitterSend_cases (net : Net) (hnet : twitterNetOk net) (req : Request) :
    twitterSend net req = .error .timeout ∨
    (∃ m, twitterSend net req = .error (.netError m)) ∨
    (∃ kvs, twitterSend net req = .ok (.obj kvs) ∧ bodyShapely (.obj kvs) = true ∧
      (req.url = TWITTER_API_BASE ++ "/users/me" →
        (jget kvs "error").isSome = true ∨ meBodyOk (.obj kvs) = true)) := by
  rcases hs0 : twitterSend net req with e | j
  · rcases twitterSend_error_cases net hnet req e hs0 with rfl | ⟨m, rfl⟩
    · exact Or.inl rfl
    · exact Or.inr (Or.inl ⟨m, rfl⟩)
  · have hs := hs0
    unfold twitterSend at hs
    rcases hn : net req with r | _ | m <;> rw [hn] at hs
    · rcases twitterHandleResponse_shape r j hs with ⟨m, rfl⟩ | ⟨rfl, h204⟩ | ⟨hst, hb⟩
      · exact Or.inr (Or.inr ⟨[("error", .str m)], rfl, rfl, fun _ => Or.inl rfl⟩)
      · refine Or.inr (Or.inr ⟨[("success", .bool true)], rfl, rfl, fun hurl => ?_⟩)
        exact absurd h204 ((hnet req r hn).2 hurl)
      · rcases (hnet req r hn).1 hst with ⟨j', hj', hsh, hme⟩
        rw [hb] at hj'
        obtain rfl : j = j' := Option.some.inj hj'
        rcases bodyShapely_obj hsh with ⟨kvs, rfl⟩
        exact Or.inr (Or.inr ⟨kvs, rfl, hsh, fun hurl => Or.inr (hme hurl)⟩)
    · exact Except.noConfusion hs
    · exact Except.noConfusion hs

/-- Outcomes of a Google send under the network contract: a transport
exception or a well-shaped object. -/
theorem googleSend_cases (net : Net) (hnet : googleNetOk net) (req : Request) :
    googleSend net req = .error .timeout ∨
    (∃ m, googleSend net req = .error (.netError m)) ∨
    (∃ kvs, googleSend net req = .ok (.obj kvs) ∧ gBodyOk (.obj kvs) = true) := by
  rcases hs0 : googleSend net req with e | j
  · rcases googleSend_error_cases net hnet req e hs0 with rfl | ⟨m, rfl⟩
    · exact Or.inl rfl
    · exact Or.inr (Or.inl ⟨m, rfl⟩)
  · have hs := hs0
    unfold googleSend at hs
    rcases hn : net req with r | _ | m <;> rw [hn] at hs
    · rcases googleHandleResponse_shape r j hs with ⟨m, rfl⟩ | ⟨hst, hb⟩
      · exact Or.inr (Or.inr ⟨[("error", .str m)], rfl, rfl⟩)
      · rcases hnet req r hn hst with ⟨j', hj', hsh⟩
        rw [hb] at hj'
        obtain rfl : j = j' := Option.some.inj hj'
        rcases gBodyOk_obj hsh with ⟨kvs, rfl⟩
        exact Or.inr (Or.inr ⟨kvs, rfl, hsh⟩)
    · exact Except.noConfusion hs
    · exact Except.noConfusion hs

/-- `passResult` preserves raised exceptions. -/
theorem passResult_error (e : PyExc) : passResult (.error e) = .error e := rfl

/-- `passResult` returns an object result unchanged. -/
theorem passResult_obj (kvs : List (String × JVal)) :
    passResult (.ok (.obj kvs)) = .ok (.obj kvs) := by
  unfold passResult
  cases hb : (jget kvs "error").isSome <;>
    simp [bind, Except.bind, pyInError, hb, pure, Except.pure]

/-- `shapeDataField` preserves raised exceptions. -/
theorem shapeDataField_error (inKey outKey : String) (dflt : JVal) (e : PyExc) :
    shapeDataField inKey outKey dflt (.error e) = .error e := rfl

/-- `shapeDataField` maps a shapely object result to an object result. -/
theorem shapeDataField_obj (inKey outKey : String) (dflt : JVal)
    (kvs : List (String × JVal)) (h : bodyShapely (.obj kvs) = true) :
    ∃ kvs', shapeDataField inKey outKey dflt (.ok (.obj kvs)) = .ok (.obj kvs') := by
  unfold shapeDataField
  cases hb : (jget kvs "error").isSome
  · cases hd : jget kvs "data" with
    | none =>
      exact ⟨[("success", .bool true), (outKey, dflt)], by
        simp [bind, Except.bind, pyInError, hb, hd, jgetAttr, pure, Except.pure, jget_nil]⟩
    | some v =>
      cases v
      case obj dkvs =>
        exact ⟨[("success", .bool true), (outKey, (jget dkvs inKey).getD dflt)], by
          simp [bind, Except.bind, pyInError, hb, hd, jgetAttr, pure, Except.pure]⟩
      all_goals simp [bodyShapely, hd] at h
  · exact ⟨kvs, by simp [bind, Except.bind, pyInError, hb, pure, Except.pure]⟩

/-- `shapePostTweet` preserves raised exceptions. -/
theorem shapePostTweet_error (e : PyExc) : shapePostTweet (.error e) = .error e := rfl

/-- `shapePostTweet` maps a shapely object result to an object result. -/
theorem shapePostTweet_obj (kvs : List (String × JVal)) (h : bodyShapely (.obj kvs) = true) :
    ∃ kvs', shapePostTweet (.ok (.obj kvs)) = .ok (.obj kvs') := by
  unfold shapePostTweet
  cases hb : (jget kvs "error").isSome
  · cases hd : jget kvs "data" with
    | none =>
      exact ⟨[("success", .bool true), ("tweet_id", .null), ("text", .null)], by
        simp [bind, Except.bind, pyInError, hb, hd, jgetAttr, pure, Except.pure, jget_nil]⟩
    | some v =>
      cases v
      case obj dkvs =>
        exact ⟨[("success", .bool true), ("tweet_id", (jget dkvs "id").getD .null),
          ("text", (jget dkvs "text").getD .null)], by
          simp [bind, Except.bind, pyInError, hb, hd, jgetAttr, pure, Except.pure]⟩
      all_goals simp [bodyShapely, hd] at h
  · exact ⟨kvs, by simp [bind, Except.bind, pyInError, hb, pure, Except.pure]⟩

/-- `shapeCreateDocument` preserves raised exceptions. -/
theorem shapeCreateDocument_error (e : PyExc) :
    shapeCreateDocument (.error e) = .error e := rfl

/-- `shapeCreateDocument` maps any object result to an object result. -/
theorem shapeCreateDocument_obj (kvs : List (String × JVal)) :
    ∃ kvs', shapeCreateDocument (.ok (.obj kvs)) = .ok (.obj kvs') := by
  unfold shapeCreateDocument
  cases hb : (jget kvs "error").isSome
  · exact ⟨[("document_id", (jget kvs "documentId").getD .null),
      ("title", (jget kvs "title").getD .null),
      ("document_url", .str ("https://docs.google.com/document/d/" ++
        pyStr ((jget kvs "documentId").getD .null) ++ "/edit"))], by
      simp [bind, Except.bind, pyInError, hb, jgetAttr, pure, Except.pure]⟩
  · exact ⟨kvs, by simp [bind, Except.bind, pyInError, hb, pure, Except.pure]⟩

/-- On well-shaped replies, the occurrence sum never raises. -/
theorem countOccurrences_ok (items : List JVal) (h : ∀ x ∈ items, gReplyOk x = true) :
    ∀ a : Int, ∃ n, items.foldl addOccurrence (.ok a) = .ok n := by
  induction items with
  | nil => intro a; exact ⟨a, rfl⟩
  | cons x xs ih =>
    intro a
    have hx := h x (List.mem_cons_self _ _)
    obtain ⟨a', ha⟩ : ∃ a', addOccurrence (.ok a) x = .ok a' := by
      cases x
      case obj rk =>
        cases hr : jget rk "replaceAllText" with
        | none =>
          exact ⟨a + 0, by
            simp [addOccurrence, bind, Except.bind, jgetAttr, hr, pure, Except.pure, jget_nil]⟩
        | some v =>
          cases v
          case obj akvs =>
            cases ho : jget akvs "occurrencesChanged" with
            | none =>
              exact ⟨a + 0, by
                simp [addOccurrence, bind, Except.bind, jgetAttr, hr, ho, pure, Except.pure]⟩
            | some w =>
              cases w
              case int n =>
                exact ⟨a + n, by
                  simp [addOccurrence, bind, Except.bind, jgetAttr, hr, ho, pure, Except.pure]⟩
              all_goals exact absurd hx (by simp [gReplyOk, hr, ho])
          all_goals exact absurd hx (by simp [gReplyOk, hr])
      all_goals exact absurd hx (by simp [gReplyOk])
    rw [List.foldl_cons, ha]
    exact ih (fun y hy => h y (List.mem_cons_of_mem _ hy)) a'

/-- `shapeReplaceAll` preserves raised exceptions. -/
theorem shapeReplaceAll_error (documentId findText replaceText : String) (e : PyExc) :
    shapeReplaceAll documentId findText replaceText (.error e) = .error e := rfl

/-- `shapeReplaceAll` maps a well-shaped object result to an object result. -/
theorem shapeReplaceAll_obj (documentId findText replaceText : String)
    (kvs : List (String × JVal)) (h : gRepliesOk kvs = true) :
    ∃ kvs', shapeReplaceAll documentId findText replaceText (.ok (.obj kvs)) =
      .ok (.obj kvs') := by
  unfold shapeReplaceAll
  cases hb : (jget kvs "error").isSome
  · cases hr : jget kvs "replies" with
    | none =>
      exact ⟨[("document_id", .str documentId), ("find_text", .str findText),
        ("replace_text", .str replaceText), ("occurrences_replaced", .int 0)], by
        simp [bind, Except.bind, pyInError, hb, hr, jgetAttr, pyIterList,
          countOccurrences, pure, Except.pure]⟩
    | some v =>
      cases v
      case arr rs =>
        have hall : ∀ x ∈ rs, gReplyOk x = true := by
          have h' : rs.all gReplyOk = true := by simpa [gRepliesOk, hr] using h
          intro x hxx
          exact List.all_eq_true.mp h' x hxx
        obtain ⟨n, hn⟩ := countOccurrences_ok rs hall 0
        exact ⟨[("document_id", .str documentId), ("find_text", .str findText),
          ("replace_text", .str replaceText), ("occurrences_replaced", .int n)], by
          simp [bind, Except.bind, pyInError, hb, hr, jgetAttr, pyIterList,
            countOccurrences, hn, pure, Except.pure]⟩
      all_goals exact absurd h (by simp [gRepliesOk, hr])
  · exact ⟨kvs, by simp [bind, Except.bind, pyInError, hb, pure, Except.pure]⟩

/-- On a well-shaped document, the end-index computation never raises. -/
theorem insertEndIndex_ok (kvs : List (String × JVal)) (h : gBodyContentOk kvs = true) :
    ∃ i, insertEndIndex (.obj kvs) = .ok i := by
  cases hb : jget kvs "body" with
  | none =>
    exact ⟨1, by
      simp [insertEndIndex, jgetAttr, hb, jTruthy, bind, Except.bind, pure, Except.pure,
        jget_nil]⟩
  | some v =>
    cases v
    case obj b =>
      cases hc : jget b "content" with
      | none =>
        exact ⟨1, by
          simp [insertEndIndex, jgetAttr, hb, hc, jTruthy, bind, Except.bind, pure,
            Except.pure]⟩
      | some w =>
        cases w
        case arr cs =>
          cases hl : cs.getLast? with
          | none =>
            have hnil : cs = [] := by
              cases cs with
              | nil => rfl
              | cons c cs' => simp at hl
            subst hnil
            exact ⟨1, by
              simp [insertEndIndex, jgetAttr, hb, hc, jTruthy, bind, Except.bind, pure,
                Except.pure]⟩
          | some lv =>
            have hne : cs ≠ [] := by
              intro hh
              rw [hh] at hl
              exact Option.noConfusion hl
            cases lv
            case obj l =>
              cases he : jget l "endIndex" with
              | none =>
                exact ⟨0, by
                  simp [insertEndIndex, jgetAttr, hb, hc, jTruthy, hne, pyIndexLast, hl, he,
                    pySubOne, bind, Except.bind, pure, Except.pure]⟩
              | some ev =>
                cases ev
                case int n =>
                  exact ⟨n - 1, by
                    simp [insertEndIndex, jgetAttr, hb, hc, jTruthy, hne, pyIndexLast, hl, he,
                      pySubOne, bind, Except.bind, pure, Except.pure]⟩
                all_goals exact absurd h (by simp [gBodyContentOk, hb, hc, hl, he])
            all_goals exact absurd h (by simp [gBodyContentOk, hb, hc, hl])
        all_goals exact absurd h (by simp [gBodyContentOk, hb, hc])
    all_goals exact absurd h (by simp [gBodyContentOk, hb])

/-- Outcomes of an engagement operation from an empty cache under the network
contract: a transport exception or an object result. -/
theorem engageWith_result_cases (net : Net) (hnet : twitterNetOk net) (tok : String)
    (mkReq : String → Request) :
    (engageWith net tok none mkReq).1 = .error .timeout ∨
    (∃ m, (engageWith net tok none mkReq).1 = .error (.netError m)) ∨
    (∃ kvs, (engageWith net tok none mkReq).1 = .ok (.obj kvs) ∧
      bodyShapely (.obj kvs) = true) := by
  rcases getMeId_none_spec net tok with ⟨e, h1, hg⟩ | ⟨result, e, h1, h2, hg⟩ |
    ⟨result, h1, h2, hg⟩ | ⟨result, e, h1, h2, h3, hg⟩ | ⟨result, v, h1, h2, h3, hg⟩
  · rcases twitterSend_error_cases net hnet _ e h1 with rfl | ⟨m, rfl⟩
    · exact Or.inl (by simp [engageWith, hg])
    · exact Or.inr (Or.inl ⟨m, by simp [engageWith, hg]⟩)
  · rcases twitterSend_cases net hnet (meRequest tok) with hx | ⟨m, hx⟩ | ⟨kvs, hx, hsh, hme⟩
    · rw [h1] at hx; exact Except.noConfusion hx
    · rw [h1] at hx; exact Except.noConfusion hx
    · obtain rfl : result = .obj kvs := by rw [h1] at hx; exact Except.ok.inj hx
      simp [pyInError] at h2
  · rcases twitterSend_cases net hnet (meRequest tok) with hx | ⟨m, hx⟩ | ⟨kvs, hx, hsh, hme⟩
    · rw [h1] at hx; exact Except.noConfusion hx
    · rw [h1] at hx; exact Except.noConfusion hx
    · obtain rfl : result = .obj kvs := by rw [h1] at hx; exact Except.ok.inj hx
      exact Or.inr (Or.inr ⟨kvs, by simp [engageWith, hg], hsh⟩)
  · rcases twitterSend_cases net hnet (meRequest tok) with hx | ⟨m, hx⟩ | ⟨kvs, hx, hsh, hme⟩
    · rw [h1] at hx; exact Except.noConfusion hx
    · rw [h1] at hx; exact Except.noConfusion hx
    · obtain rfl : result = .obj kvs := by rw [h1] at hx; exact Except.ok.inj hx
      have hiss : (jget kvs "error").isSome = false := by simpa [pyInError] using h2
      rcases hme rfl with herr | hmeok
      · rw [hiss] at herr; exact Bool.noConfusion herr
      · obtain ⟨s, hchain⟩ := meChain_ok hmeok
        rw [h3] at hchain
        exact Except.noConfusion hchain
  · rcases twitterSend_cases net hnet (meRequest tok) with hx | ⟨m, hx⟩ | ⟨kvs, hx, hsh, hme⟩
    · rw [h1] at hx; exact Except.noConfusion hx
    · rw [h1] at hx; exact Except.noConfusion hx
    · obtain rfl : result = .obj kvs := by rw [h1] at hx; exact Except.ok.inj hx
      have hiss : (jget kvs "error").isSome = false := by simpa [pyInError] using h2
      rcases hme rfl with herr | hmeok
      · rw [hiss] at herr; exact Bool.noConfusion herr
      · obtain ⟨s, hchain⟩ := meChain_ok hmeok
        rw [h3] at hchain
        obtain rfl : v = .str s := Except.ok.inj hchain
        rcases twitterSend_cases net hnet (mkReq s) with hy | ⟨m, hy⟩ | ⟨kvs2, hy, hsh2, _⟩
        · exact Or.inl (by simpa [engageWith, hg, pyStr] using hy)
        · exact Or.inr (Or.inl ⟨m, by simpa [engageWith, hg, pyStr] using hy⟩)
        · exact Or.inr (Or.inr ⟨kvs2, by simpa [engageWith, hg, pyStr] using hy, hsh2⟩)

/-- Outcomes of `insert_text` under the network contract: a transport
exception or an object result. -/
theorem insertTextOp_result (net : Net) (hnet : googleNetOk net)
    (tok documentId text : String) (index : Option Int) (segmentId : Option String) :
    (insertTextOp net tok documentId text index segmentId).1 = .error .timeout ∨
    (∃ m, (insertTextOp net tok documentId text index segmentId).1 = .error (.netError m)) ∨
    (∃ kvs, (insertTextOp net tok documentId text index segmentId).1 = .ok (.obj kvs)) := by
  cases index with
  | some i =>
    rcases googleSend_cases net hnet (batchUpdateRequest tok documentId
        [insertTextBody (insertLocation segmentId i) text]) with hy | ⟨m, hy⟩ | ⟨kvs, hy, _⟩
    · exact Or.inl (by simpa [insertTextOp, batchUpdateOp] using hy)
    · exact Or.inr (Or.inl ⟨m, by simpa [insertTextOp, batchUpdateOp] using hy⟩)
    · exact Or.inr (Or.inr ⟨kvs, by simpa [insertTextOp, batchUpdateOp] using hy⟩)
  | none =>
    rcases googleSend_cases net hnet (getDocumentRequest tok documentId) with
      hy | ⟨m, hy⟩ | ⟨kvs, hy, hsh⟩
    · exact Or.inl (by simp [insertTextOp, getDocumentOp, hy])
    · exact Or.inr (Or.inl ⟨m, by simp [insertTextOp, getDocumentOp, hy]⟩)
    · cases hbe : (jget kvs "error").isSome
      · have hco : gBodyContentOk kvs = true := by
          have h' := hsh
          simp [gBodyOk, Bool.and_eq_true] at h'
          exact h'.1
        obtain ⟨i, hi⟩ := insertEndIndex_ok kvs hco
        rcases googleSend_cases net hnet (batchUpdateRequest tok documentId
            [insertTextBody (insertLocation segmentId i) text]) with
          hz | ⟨m, hz⟩ | ⟨kvs2, hz, _⟩
        · exact Or.inl (by
            simpa [insertTextOp, getDocumentOp, hy, pyInError, hbe, hi, batchUpdateOp]
              using hz)
        · exact Or.inr (Or.inl ⟨m, by
            simpa [insertTextOp, getDocumentOp, hy, pyInError, hbe, hi, batchUpdateOp]
              using hz⟩)
        · exact Or.inr (Or.inr ⟨kvs2, by
            simpa [insertTextOp, getDocumentOp, hy, pyInError, hbe, hi, batchUpdateOp]
              using hz⟩)
      · exact Or.inr (Or.inr ⟨kvs, by
          simp [insertTextOp, getDocumentOp, hy, pyInError, hbe]⟩)

/-- Under the store contract, the Twitter `_get_client` never raises: it
returns the error mapping or a token. -/
theorem twitterGetClient_cases (credentials : Option Store) (env : Env)
    (hs : storeStrOnly credentials) :
    twitterGetClient credentials env = .ok (.inl twitterNoCreds) ∨
    ∃ tok, twitterGetClient credentials env = .ok (.inr tok) := by
  cases credentials with
  | none =>
    cases he : getenv env "TWITTER_BEARER_TOKEN" with
    | none => exact Or.inl (by simp [twitterGetClient, twitterGetToken, he])
    | some s =>
      by_cases hse : s = ""
      · subst hse
        exact Or.inl (by simp [twitterGetClient, twitterGetToken, he])
      · exact Or.inr ⟨s, by simp [twitterGetClient, twitterGetToken, he, hse]⟩
  | some st =>
    cases hv : st "twitter" with
    | absent => exact Or.inl (by simp [twitterGetClient, twitterGetToken, hv])
    | str s =>
      by_cases hse : s = ""
      · subst hse
        exact Or.inl (by simp [twitterGetClient, twitterGetToken, hv])
      · exact Or.inr ⟨s, by simp [twitterGetClient, twitterGetToken, hv, hse]⟩
    | other ty => exact absurd hv (hs st "twitter" ty rfl)

/-- Under the store and service-account contracts, the Google Docs
`_get_client` never raises: it returns the error mapping or a token. -/
theorem googleGetClient_cases (parse : String → Except Unit JVal)
    (credentials : Option Store) (env : Env)
    (hs : storeStrOnly credentials) (hsa : saParseOk parse env) :
    googleGetClient parse credentials env = .ok (.inl googleNoCreds) ∨
    ∃ tok, googleGetClient parse credentials env = .ok (.inr tok) := by
  cases credentials with
  | some st =>
    cases hv : st "google_docs" with
    | absent => exact Or.inl (by simp [googleGetClient, googleGetToken, hv])
    | str s =>
      by_cases hse : s = ""
      · subst hse
        exact Or.inl (by simp [googleGetClient, googleGetToken, hv, jTruthy])
      · exact Or.inr ⟨s, by simp [googleGetClient, googleGetToken, hv, jTruthy, hse, pyStr]⟩
    | other ty => exact absurd hv (hs st "google_docs" ty rfl)
  | none =>
    have hfall : ∀ (hdone :
        (getenv env "GOOGLE_DOCS_ACCESS_TOKEN" = none ∨
          getenv env "GOOGLE_DOCS_ACCESS_TOKEN" = some "")),
        googleGetClient parse none env = .ok (.inl googleNoCreds) ∨
        ∃ tok, googleGetClient parse none env = .ok (.inr tok) := by
      intro hdone
      cases hsj : getenv env "GOOGLE_SERVICE_ACCOUNT_JSON" with
      | none =>
        rcases hdone with he | he <;>
          exact Or.inl (by simp [googleGetClient, googleGetToken, he, hsj])
      | some sa =>
        by_cases hsae : sa = ""
        · subst hsae
          rcases hdone with he | he <;>
            exact Or.inl (by simp [googleGetClient, googleGetToken, he, hsj])
        · rcases hsa sa hsj hsae with ⟨u, hp⟩ | ⟨kvs, hp⟩
          · rcases hdone with he | he <;>
              exact Or.inl (by simp [googleGetClient, googleGetToken, he, hsj, hsae, hp])
          · cases hat : jget kvs "access_token" with
            | none =>
              rcases hdone with he | he <;>
                exact Or.inl (by
                  simp [googleGetClient, googleGetToken, he, hsj, hsae, hp, hat])
            | some v =>
              cases htv : jTruthy v
              · rcases hdone with he | he <;>
                  exact Or.inl (by
                    simp [googleGetClient, googleGetToken, he, hsj, hsae, hp, hat, htv])
              · refine Or.inr ⟨pyStr v, ?_⟩
                rcases hdone with he | he <;>
                  simp [googleGetClient, googleGetToken, he, hsj, hsae, hp, hat, htv]
    cases he : getenv env "GOOGLE_DOCS_ACCESS_TOKEN" with
    | none => exact hfall (Or.inl he)
    | some t =>
      by_cases hte : t = ""
      · subst hte
        exact hfall (Or.inr he)
      · exact Or.inr ⟨t, by simp [googleGetClient, googleGetToken, he, hte, jTruthy, pyStr]⟩

/-- A stateless Twitter tool body is total under the contracts. -/
theorem twitterToolBody_ok (net : Net) (hnet : twitterNetOk net) (req : Request)
    (P : PyM JVal → PyM JVal) (hPerr : ∀ e, P (.error e) = .error e)
    (hPok : ∀ kvs, bodyShapely (.obj kvs) = true →
      ∃ kvs', P (.ok (.obj kvs)) = .ok (.obj kvs')) :
    ∃ kvs, catchTransport (P (twitterSend net req)) = .ok (.obj kvs) := by
  rcases twitterSend_cases net hnet req with hx | ⟨m, hx⟩ | ⟨kvs, hx, hsh, _⟩
  · rw [hx, hPerr]
    exact ⟨[("error", .str "Request timed out")], rfl⟩
  · rw [hx, hPerr]
    exact ⟨[("error", .str ("Network error: " ++ m))], rfl⟩
  · obtain ⟨kvs', hP⟩ := hPok kvs hsh
    rw [hx, hP]
    exact ⟨kvs', rfl⟩

/-- An engagement Twitter tool body is total under the contracts. -/
theorem twitterEngageBody_ok (net : Net) (hnet : twitterNetOk net) (tok : String)
    (mkReq : String → Request) (inKey outKey : String) (dflt : JVal) :
    ∃ kvs, catchTransport (shapeDataField inKey outKey dflt
      (engageWith net tok none mkReq).1) = .ok (.obj kvs) := by
  rcases engageWith_result_cases net hnet tok mkReq with hx | ⟨m, hx⟩ | ⟨kvs, hx, hsh⟩
  · rw [hx, shapeDataField_error]
    exact ⟨[("error", .str "Request timed out")], rfl⟩
  · rw [hx, shapeDataField_error]
    exact ⟨[("error", .str ("Network error: " ++ m))], rfl⟩
  · obtain ⟨kvs', hP⟩ := shapeDataField_obj inKey outKey dflt kvs hsh
    rw [hx, hP]
    exact ⟨kvs', rfl⟩

/-- A Google Docs tool body (single send plus shaping) is total under the
contracts. -/
theorem googleToolBody_ok (net : Net) (hnet : googleNetOk net) (req : Request)
    (P : PyM JVal → PyM JVal) (hPerr : ∀ e, P (.error e) = .error e)
    (hPok : ∀ kvs, gBodyOk (.obj kvs) = true →
      ∃ kvs', P (.ok (.obj kvs)) = .ok (.obj kvs')) :
    ∃ kvs, catchTransport (P (googleSend net req)) = .ok (.obj kvs) := by
  rcases googleSend_cases net hnet req with hx | ⟨m, hx⟩ | ⟨kvs, hx, hsh⟩
  · rw [hx, hPerr]
    exact ⟨[("error", .str "Request timed out")], rfl⟩
  · rw [hx, hPerr]
    exact ⟨[("error", .str ("Network error: " ++ m))], rfl⟩
  · obtain ⟨kvs', hP⟩ := hPok kvs hsh
    rw [hx, hP]
    exact ⟨kvs', rfl⟩

/-- An `.ok twitterNoCreds` result is an object result. -/
theorem exists_okObj_twitterNoCreds {x : PyM JVal} (h : x = .ok twitterNoCreds) :
    ∃ kvs, x = .ok (.obj kvs) := ⟨_, by rw [h, twitterNoCreds]⟩

/-- An `.ok googleNoCreds` result is an object result. -/
theorem exists_okObj_googleNoCreds {x : PyM JVal} (h : x = .ok googleNoCreds) :
    ∃ kvs, x = .ok (.obj kvs) := ⟨_, by rw [h, googleNoCreds]⟩

/-! ## Claim C2 -/

/-- **C2** (corrected): counterexample.  The claim says no registered tool
ever raises for any input, including a credential store returning a non-string
value and a 2xx response whose body is not valid JSON.  Both raise:
`twitter_post_tweet` with a store yielding an `int` raises the deliberate
`TypeError` from `_get_token`, and `twitter_get_tweet` with a 200 response
whose body is not valid JSON raises the JSON-decode error from
`response.json()`, which the tool's transport-only `except` clauses do not
catch. -/
theorem claim_C2_counterexample :
    (twitter_post_tweet (some (fun _ => .other "int")) [] (fun _ => .timeout) "hello" "").1 =
      .error (.typeError
        "Expected string from credentials.get(\x27twitter\x27), got int") ∧
    (twitter_get_tweet none [("TWITTER_BEARER_TOKEN", "tk")]
        (fun _ => .resp { status := 200, body := none, text := "not json", headers := [] })
        "1" "created_at").1 = .error .jsonDecodeError := by
  exact ⟨rfl, rfl⟩

/-- **C2** (corrected): amended claim.  The registered tools can raise to the
host in exactly these modeled families:
(a) a credential store returning a non-string, non-absent value — the
deliberate `TypeError` in `_get_token`;
(b) `GOOGLE_SERVICE_ACCOUNT_JSON` holding valid JSON that is not an object —
`sa_data.get("access_token")` raises `AttributeError`, which the
`except json.JSONDecodeError` clause does not catch;
(c) a response that the adapter parses (status 200/201 for Twitter, any
status < 400 for Google Docs, a 204 included) whose body is empty, not valid
JSON, or JSON of a shape the post-processing does not expect — raising
JSON-decode/`AttributeError`/`KeyError`/`TypeError` through the
transport-only `except` clauses; this includes a 204 answer on the
`/users/me` identity endpoint, whose `{"success": True}` marker then makes
`result["data"]` raise `KeyError` in every engagement tool.
Outside these families every tool call returns a mapping.  Formally: under
hypotheses that exclude exactly families (a) (`storeStrOnly`), (b)
(`saParseOk`) and (c) (`twitterNetOk` / `googleNetOk`, whose identity clauses
exclude the me-shape and me-204 cases), every embedded registered tool
returns `.ok` of a JSON object; and the two raise paths of families (b) and
(c) that the original two-family wording omitted are exhibited concretely in
the final two conjuncts. -/
theorem claim_C2_amended :
    (∀ (credentials : Option Store) (env : Env) (net : Net) (text replyTo : String),
      storeStrOnly credentials → twitterNetOk net →
      ∃ kvs, (twitter_post_tweet credentials env net text replyTo).1 = .ok (.obj kvs)) ∧
    (∀ (parse : String → Except Unit JVal) (credentials : Option Store) (env : Env)
        (net : Net) (documentId : String),
      storeStrOnly credentials → googleNetOk net → saParseOk parse env →
      ∃ kvs, (google_docs_get_document parse credentials env net documentId).1 =
        .ok (.obj kvs)) ∧
    (∀ (credentials : Option Store) (env : Env) (net : Net) (tweetId : String),
      storeStrOnly credentials → twitterNetOk net →
      ∃ kvs, (twitter_delete_tweet credentials env net tweetId).1 = .ok (.obj kvs)) ∧
    (∀ (credentials : Option Store) (env : Env) (net : Net) (tweetId tweetFields : String),
      storeStrOnly credentials → twitterNetOk net →
      ∃ kvs, (twitter_get_tweet credentials env net tweetId tweetFields).1 = .ok (.obj kvs)) ∧
    (∀ (credentials : Option Store) (env : Env) (net : Net) (query : String)
        (maxResults : Int) (tweetFields : String),
      storeStrOnly credentials → twitterNetOk net →
      ∃ kvs, (twitter_search_tweets credentials env net query maxResults tweetFields).1 =
        .ok (.obj kvs)) ∧
    (∀ (credentials : Option Store) (env : Env) (net : Net) (tweetId : String),
      storeStrOnly credentials → twitterNetOk net →
      ∃ kvs, (twitter_like_tweet credentials env net tweetId).1 = .ok (.obj kvs)) ∧
    (∀ (credentials : Option Store) (env : Env) (net : Net) (tweetId : String),
      storeStrOnly credentials → twitterNetOk net →
      ∃ kvs, (twitter_unlike_tweet credentials env net tweetId).1 = .ok (.obj kvs)) ∧
    (∀ (credentials : Option Store) (env : Env) (net : Net) (tweetId : String),
      storeStrOnly credentials → twitterNetOk net →
      ∃ kvs, (twitter_retweet credentials env net tweetId).1 = .ok (.obj kvs)) ∧
    (∀ (credentials : Option Store) (env : Env) (net : Net) (tweetId : String),
      storeStrOnly credentials → twitterNetOk net →
      ∃ kvs, (twitter_undo_retweet credentials env net tweetId).1 = .ok (.obj kvs)) ∧
    (∀ (credentials : Option Store) (env : Env) (net : Net) (username : String),
      storeStrOnly credentials → twitterNetOk net →
      ∃ kvs, (twitter_get_user credentials env net username).1 = .ok (.obj kvs)) ∧
    (∀ (credentials : Option Store) (env : Env) (net : Net) (targetUserId : String),
      storeStrOnly credentials → twitterNetOk net →
      ∃ kvs, (twitter_follow_user credentials env net targetUserId).1 = .ok (.obj kvs)) ∧
    (∀ (credentials : Option Store) (env : Env) (net : Net) (targetUserId : String),
      storeStrOnly credentials → twitterNetOk net →
      ∃ kvs, (twitter_unfollow_user credentials env net targetUserId).1 = .ok (.obj kvs)) ∧
    (∀ (credentials : Option Store) (env : Env) (net : Net) (userId : String)
        (maxResults : Int) (paginationToken : String),
      storeStrOnly credentials → twitterNetOk net →
      ∃ kvs, (twitter_get_followers credentials env net userId maxResults
        paginationToken).1 = .ok (.obj kvs)) ∧
    (∀ (credentials : Option Store) (env : Env) (net : Net) (userId : String)
        (maxResults : Int) (paginationToken : String),
      storeStrOnly credentials → twitterNetOk net →
      ∃ kvs, (twitter_get_following credentials env net userId maxResults
        paginationToken).1 = .ok (.obj kvs)) ∧
    (∀ (credentials : Option Store) (env : Env) (net : Net) (userId : String)
        (maxResults : Int) (paginationToken tweetFields : String),
      storeStrOnly credentials → twitterNetOk net →
      ∃ kvs, (twitter_get_user_tweets credentials env net userId maxResults
        paginationToken tweetFields).1 = .ok (.obj kvs)) ∧
    (∀ (credentials : Option Store) (env : Env) (net : Net) (userId : String)
        (maxResults : Int) (paginationToken tweetFields : String),
      storeStrOnly credentials → twitterNetOk net →
      ∃ kvs, (twitter_get_mentions credentials env net userId maxResults
        paginationToken tweetFields).1 = .ok (.obj kvs)) ∧
    (∀ (parse : String → Except Unit JVal) (credentials : Option Store) (env : Env)
        (net : Net) (title : String),
      storeStrOnly credentials → googleNetOk net → saParseOk parse env →
      ∃ kvs, (google_docs_create_document parse credentials env net title).1 =
        .ok (.obj kvs)) ∧
    (∀ (parse : String → Except Unit JVal) (credentials : Option Store) (env : Env)
        (net : Net) (documentId text : String) (index : Option Int),
      storeStrOnly credentials → googleNetOk net → saParseOk parse env →
      ∃ kvs, (google_docs_insert_text parse credentials env net documentId text index).1 =
        .ok (.obj kvs)) ∧
    (∀ (parse : String → Except Unit JVal) (credentials : Option Store) (env : Env)
        (net : Net) (documentId findText replaceText : String) (matchCase : Bool),
      storeStrOnly credentials → googleNetOk net → saParseOk parse env →
      ∃ kvs, (google_docs_replace_all_text parse credentials env net documentId findText
        replaceText matchCase).1 = .ok (.obj kvs)) ∧
    (google_docs_get_document (fun _ => .ok (.arr [.int 1])) none
      [("GOOGLE_SERVICE_ACCOUNT_JSON", "[1]")] (fun _ => .timeout) "d").1 =
      .error .attributeError ∧
    (twitter_like_tweet none [("TWITTER_BEARER_TOKEN", "tk")]
      (fun _ => .resp { status := 204, body := none, text := "", headers := [] }) "9").1 =
      .error .keyError := by
  refine ⟨?_, ?_, ?_, ?_, ?_, ?_, ?_, ?_, ?_, ?_, ?_, ?_, ?_, ?_, ?_, ?_, ?_, ?_, ?_,
    rfl, rfl⟩
  · intro credentials env net text replyTo h1 h2
    rcases twitterGetClient_cases credentials env h1 with hg | ⟨tok, hg⟩
    · exact exists_okObj_twitterNoCreds (by simp [twitter_post_tweet, hg])
    · obtain ⟨kvs, hk⟩ := twitterToolBody_ok net h2
        (postTweetRequest tok text (if replyTo == "" then none else some replyTo))
        shapePostTweet shapePostTweet_error shapePostTweet_obj
      exact ⟨kvs, by simp only [twitter_post_tweet, hg, postTweetOp]; exact hk⟩
  · intro parse credentials env net documentId h1 h2 h3
    rcases googleGetClient_cases parse credentials env h1 h3 with hg | ⟨tok, hg⟩
    · exact exists_okObj_googleNoCreds (by simp [google_docs_get_document, hg])
    · obtain ⟨kvs, hk⟩ := googleToolBody_ok net h2 (getDocumentRequest tok documentId)
        (fun x => x) (fun _ => rfl) (fun kvs _ => ⟨kvs, rfl⟩)
      exact ⟨kvs, by simp only [google_docs_get_document, hg, getDocumentOp]; exact hk⟩
  · intro credentials env net tweetId h1 h2
    rcases twitterGetClient_cases credentials env h1 with hg | ⟨tok, hg⟩
    · exact exists_okObj_twitterNoCreds (by simp [twitter_delete_tweet, hg])
    · obtain ⟨kvs, hk⟩ := twitterToolBody_ok net h2 (deleteTweetRequest tok tweetId)
        (shapeDataField "deleted" "deleted" (.bool false))
        (shapeDataField_error _ _ _) (shapeDataField_obj _ _ _)
      exact ⟨kvs, by simp only [twitter_delete_tweet, hg, deleteTweetOp]; exact hk⟩
  · intro credentials env net tweetId tweetFields h1 h2
    rcases twitterGetClient_cases credentials env h1 with hg | ⟨tok, hg⟩
    · exact exists_okObj_twitterNoCreds (by simp [twitter_get_tweet, hg])
    · obtain ⟨kvs, hk⟩ := twitterToolBody_ok net h2 (getTweetRequest tok tweetId tweetFields)
        passResult passResult_error (fun kvs _ => ⟨kvs, passResult_obj kvs⟩)
      exact ⟨kvs, by simp only [twitter_get_tweet, hg, getTweetOp]; exact hk⟩
  · intro credentials env net query maxResults tweetFields h1 h2
    rcases twitterGetClient_cases credentials env h1 with hg | ⟨tok, hg⟩
    · exact exists_okObj_twitterNoCreds (by simp [twitter_search_tweets, hg])
    · obtain ⟨kvs, hk⟩ := twitterToolBody_ok net h2
        (searchTweetsRequest tok query maxResults tweetFields)
        passResult passResult_error (fun kvs _ => ⟨kvs, passResult_obj kvs⟩)
      exact ⟨kvs, by simp only [twitter_search_tweets, hg, searchTweetsOp]; exact hk⟩
  · intro credentials env net tweetId h1 h2
    rcases twitterGetClient_cases credentials env h1 with hg | ⟨tok, hg⟩
    · exact exists_okObj_twitterNoCreds (by simp [twitter_like_tweet, hg])
    · rcases hop : likeTweetOp net tok none tweetId with ⟨r, c1, tr⟩
      obtain ⟨kvs, hk⟩ := twitterEngageBody_ok net h2 tok
        (fun meId => likeRequest tok meId tweetId) "liked" "liked" (.bool false)
      have he : engageWith net tok none (fun meId => likeRequest tok meId tweetId) =
        (r, c1, tr) := hop
      rw [he] at hk
      exact ⟨kvs, by simp only [twitter_like_tweet, hg, hop]; exact hk⟩
  · intro credentials env net tweetId h1 h2
    rcases twitterGetClient_cases credentials env h1 with hg | ⟨tok, hg⟩
    · exact exists_okObj_twitterNoCreds (by simp [twitter_unlike_tweet, hg])
    · rcases hop : unlikeTweetOp net tok none tweetId with ⟨r, c1, tr⟩
      obtain ⟨kvs, hk⟩ := twitterEngageBody_ok net h2 tok
        (fun meId => unlikeRequest tok meId tweetId) "liked" "liked" (.bool false)
      have he : engageWith net tok none (fun meId => unlikeRequest tok meId tweetId) =
        (r, c1, tr) := hop
      rw [he] at hk
      exact ⟨kvs, by simp only [twitter_unlike_tweet, hg, hop]; exact hk⟩
  · intro credentials env net tweetId h1 h2
    rcases twitterGetClient_cases credentials env h1 with hg | ⟨tok, hg⟩
    · exact exists_okObj_twitterNoCreds (by simp [twitter_retweet, hg])
    · rcases hop : retweetOp net tok none tweetId with ⟨r, c1, tr⟩
      obtain ⟨kvs, hk⟩ := twitterEngageBody_ok net h2 tok
        (fun meId => retweetRequest tok meId tweetId) "retweeted" "retweeted" (.bool false)
      have he : engageWith net tok none (fun meId => retweetRequest tok meId tweetId) =
        (r, c1, tr) := hop
      rw [he] at hk
      exact ⟨kvs, by simp only [twitter_retweet, hg, hop]; exact hk⟩
  · intro credentials env net tweetId h1 h2
    rcases twitterGetClient_cases credentials env h1 with hg | ⟨tok, hg⟩
    · exact exists_okObj_twitterNoCreds (by simp [twitter_undo_retweet, hg])
    · rcases hop : undoRetweetOp net tok none tweetId with ⟨r, c1, tr⟩
      obtain ⟨kvs, hk⟩ := twitterEngageBody_ok net h2 tok
        (fun meId => undoRetweetRequest tok meId tweetId) "retweeted" "retweeted" (.bool false)
      have he : engageWith net tok none (fun meId => undoRetweetRequest tok meId tweetId) =
        (r, c1, tr) := hop
      rw [he] at hk
      exact ⟨kvs, by simp only [twitter_undo_retweet, hg, hop]; exact hk⟩
  · intro credentials env net username h1 h2
    rcases twitterGetClient_cases credentials env h1 with hg | ⟨tok, hg⟩
    · exact exists_okObj_twitterNoCreds (by simp [twitter_get_user, hg])
    · obtain ⟨kvs, hk⟩ := twitterToolBody_ok net h2 (getUserRequest tok username)
        passResult passResult_error (fun kvs _ => ⟨kvs, passResult_obj kvs⟩)
      exact ⟨kvs, by simp only [twitter_get_user, hg, getUserOp]; exact hk⟩
  · intro credentials env net targetUserId h1 h2
    rcases twitterGetClient_cases credentials env h1 with hg | ⟨tok, hg⟩
    · exact exists_okObj_twitterNoCreds (by simp [twitter_follow_user, hg])
    · rcases hop : followUserOp net tok none targetUserId with ⟨r, c1, tr⟩
      obtain ⟨kvs, hk⟩ := twitterEngageBody_ok net h2 tok
        (fun meId => followRequest tok meId targetUserId) "following" "following" (.bool false)
      have he : engageWith net tok none (fun meId => followRequest tok meId targetUserId) =
        (r, c1, tr) := hop
      rw [he] at hk
      exact ⟨kvs, by simp only [twitter_follow_user, hg, hop]; exact hk⟩
  · intro credentials env net targetUserId h1 h2
    rcases twitterGetClient_cases credentials env h1 with hg | ⟨tok, hg⟩
    · exact exists_okObj_twitterNoCreds (by simp [twitter_unfollow_user, hg])
    · rcases hop : unfollowUserOp net tok none targetUserId with ⟨r, c1, tr⟩
      obtain ⟨kvs, hk⟩ := twitterEngageBody_ok net h2 tok
        (fun meId => unfollowRequest tok meId targetUserId) "following" "following" (.bool true)
      have he : engageWith net tok none (fun meId => unfollowRequest tok meId targetUserId) =
        (r, c1, tr) := hop
      rw [he] at hk
      exact ⟨kvs, by simp only [twitter_unfollow_user, hg, hop]; exact hk⟩
  · intro credentials env net userId maxResults paginationToken h1 h2
    rcases twitterGetClient_cases credentials env h1 with hg | ⟨tok, hg⟩
    · exact exists_okObj_twitterNoCreds (by simp [twitter_get_followers, hg])
    · obtain ⟨kvs, hk⟩ := twitterToolBody_ok net h2
        (getFollowersRequest tok userId maxResults
          (if paginationToken == "" then none else some paginationToken))
        passResult passResult_error (fun kvs _ => ⟨kvs, passResult_obj kvs⟩)
      exact ⟨kvs, by simp only [twitter_get_followers, hg, getFollowersOp]; exact hk⟩
  · intro credentials env net userId maxResults paginationToken h1 h2
    rcases twitterGetClient_cases credentials env h1 with hg | ⟨tok, hg⟩
    · exact exists_okObj_twitterNoCreds (by simp [twitter_get_following, hg])
    · obtain ⟨kvs, hk⟩ := twitterToolBody_ok net h2
        (getFollowingRequest tok userId maxResults
          (if paginationToken == "" then none else some paginationToken))
        passResult passResult_error (fun kvs _ => ⟨kvs, passResult_obj kvs⟩)
      exact ⟨kvs, by simp only [twitter_get_following, hg, getFollowingOp]; exact hk⟩
  · intro credentials env net userId maxResults paginationToken tweetFields h1 h2
    rcases twitterGetClient_cases credentials env h1 with hg | ⟨tok, hg⟩
    · exact exists_okObj_twitterNoCreds (by simp [twitter_get_user_tweets, hg])
    · obtain ⟨kvs, hk⟩ := twitterToolBody_ok net h2
        (getUserTweetsRequest tok userId maxResults
          (if paginationToken == "" then none else some paginationToken) tweetFields)
        passResult passResult_error (fun kvs _ => ⟨kvs, passResult_obj kvs⟩)
      exact ⟨kvs, by simp only [twitter_get_user_tweets, hg, getUserTweetsOp]; exact hk⟩
  · intro credentials env net userId maxResults paginationToken tweetFields h1 h2
    rcases twitterGetClient_cases credentials env h1 with hg | ⟨tok, hg⟩
    · exact exists_okObj_twitterNoCreds (by simp [twitter_get_mentions, hg])
    · obtain ⟨kvs, hk⟩ := twitterToolBody_ok net h2
        (getMentionsRequest tok userId maxResults
          (if paginationToken == "" then none else some paginationToken) tweetFields)
        passResult passResult_error (fun kvs _ => ⟨kvs, passResult_obj kvs⟩)
      exact ⟨kvs, by simp only [twitter_get_mentions, hg, getMentionsOp]; exact hk⟩
  · intro parse credentials env net title h1 h2 h3
    rcases googleGetClient_cases parse credentials env h1 h3 with hg | ⟨tok, hg⟩
    · exact exists_okObj_googleNoCreds (by simp [google_docs_create_document, hg])
    · obtain ⟨kvs, hk⟩ := googleToolBody_ok net h2 (createDocumentRequest tok title)
        shapeCreateDocument shapeCreateDocument_error (fun kvs _ => shapeCreateDocument_obj kvs)
      exact ⟨kvs, by simp only [google_docs_create_document, hg, createDocumentOp]; exact hk⟩
  · intro parse credentials env net documentId text index h1 h2 h3
    rcases googleGetClient_cases parse credentials env h1 h3 with hg | ⟨tok, hg⟩
    · exact exists_okObj_googleNoCreds (by simp [google_docs_insert_text, hg])
    · rcases hop : insertTextOp net tok documentId text index none with ⟨r, tr⟩
      rcases insertTextOp_result net h2 tok documentId text index none with
        hx | ⟨m, hx⟩ | ⟨kvs, hx⟩ <;> rw [hop] at hx
      · refine ⟨[("error", .str "Request timed out")], ?_⟩
        simp only [google_docs_insert_text, hg, hop]
        have hr : r = .error .timeout := hx
        rw [hr]
        rfl
      · refine ⟨[("error", .str ("Network error: " ++ m))], ?_⟩
        simp only [google_docs_insert_text, hg, hop]
        have hr : r = .error (.netError m) := hx
        rw [hr]
        rfl
      · refine ⟨kvs, ?_⟩
        simp only [google_docs_insert_text, hg, hop]
        have hr : r = .ok (.obj kvs) := hx
        rw [hr]
        rfl
  · intro parse credentials env net documentId findText replaceText matchCase h1 h2 h3
    rcases googleGetClient_cases parse credentials env h1 h3 with hg | ⟨tok, hg⟩
    · exact exists_okObj_googleNoCreds (by simp [google_docs_replace_all_text, hg])
    · obtain ⟨kvs, hk⟩ := googleToolBody_ok net h2
        (batchUpdateRequest tok documentId
          [replaceAllTextBody findText replaceText matchCase])
        (shapeReplaceAll documentId findText replaceText)
        (shapeReplaceAll_error _ _ _)
        (fun kvs hsh => shapeReplaceAll_obj documentId findText replaceText kvs (by
          simp [gBodyOk, Bool.and_eq_true] at hsh
          exact hsh.2))
      exact ⟨kvs, by
        simp only [google_docs_replace_all_text, hg, replaceAllTextOp, batchUpdateOp]
        exact hk⟩

/-- Witness for the amended C2: with no store and a network that always times
out, both a Twitter tool and a Google Docs tool return an object mapping. -/
theorem claim_C2_amended_witness :
    (∃ kvs, (twitter_post_tweet none [] (fun _ => .timeout) "hi" "").1 = .ok (.obj kvs)) ∧
    (∃ kvs, (google_docs_get_document (fun _ => .error ()) none [] (fun _ => .timeout)
      "d").1 = .ok (.obj kvs)) := by
  constructor
  · exact claim_C2_amended.1 none [] (fun _ => .timeout) "hi" ""
      (fun st name ty h => Option.noConfusion h)
      (fun req r h => NetResult.noConfusion h)
  · exact claim_C2_amended.2.1 (fun _ => .error ()) none [] (fun _ => .timeout) "d"
      (fun st name ty h => Option.noConfusion h)
      (fun req r h => NetResult.noConfusion h)
      (fun sa hsa _ => Option.noConfusion hsa)

end Hive
